import Mathlib

/-!
# vboxvideo mode-setting and cursor plane: a shallow embedding

Definitions are transcribed from `drivers/staging/vboxvideo/vbox_mode.c`.
Machine integers are `Nat`/`Int` with explicit wrap-around; byte buffers are
maps from byte offsets to byte values; the host channel and the I/O ports are
an explicit trace of emitted commands.
-/

namespace VBox

/-! ## Machine arithmetic -/

/-- Value of a C `int` expression after 32-bit two's-complement wrap-around. -/
def wrapS32 (x : Int) : Int := (x + 2 ^ 31) % 2 ^ 32 - 2 ^ 31

/-- Conversion of an integer value to `unsigned int` (for an `int`, its
32-bit two's-complement bit pattern). -/
def toU32 (x : Int) : Nat := (x % 2 ^ 32).toNat

/-- C `x & m` for an `int` x and a non-negative constant mask m. -/
def andMask (x : Int) (m : Nat) : Nat := toU32 x &&& m

/-- Conversion of an `int` value to `unsigned char` on assignment. -/
def toU8 (x : Int) : Nat := (x % 256).toNat

/-- Value of an `unsigned int` expression after wrap-around. -/
def wrapU32 (x : Nat) : Nat := x % 2 ^ 32

/-- Value of a `size_t` expression after wrap-around (64-bit kernel). -/
def wrapSize (x : Nat) : Nat := x % 2 ^ 64

/-! ## EDID synthesis (`vbox_set_edid`) -/

/-- The constant `EDID_SIZE` of `vbox_set_edid`. -/
def EDID_SIZE : Nat := 128

/-- The initialiser of the local array `edid` in `vbox_set_edid`. -/
def edid_template : List Nat :=
  [ 0x00, 0xFF, 0xFF, 0xFF, 0xFF, 0xFF, 0xFF, 0x00,   -- header
    0x58, 0x58,                                       -- manufacturer (VBX)
    0x00, 0x00,                                       -- product code
    0x00, 0x00, 0x00, 0x00,                           -- serial number goes here
    0x01,                                             -- week of manufacture
    0x00,                                             -- year of manufacture
    0x01, 0x03,                                       -- EDID version
    0x80,                                             -- capabilities - digital
    0x00,                                             -- horiz. res in cm
    0x00,                                             -- vert. res in cm
    0x78,                                             -- display gamma
    0xEE,                                             -- features
    0xEE, 0x91, 0xA3, 0x54, 0x4C, 0x99, 0x26, 0x0F, 0x50, 0x54,
    0x00, 0x00, 0x00,                                 -- no default timings
    0x01, 0x01, 0x01, 0x01, 0x01, 0x01, 0x01, 0x01, 0x01, 0x01,
    0x01, 0x01,
    0x01, 0x01, 0x01, 0x01,                           -- no standard timings
    0x00, 0x00, 0x00, 0x06, 0x00, 0x00, 0x06, 0x00, 0x02, 0x02,
    0x02, 0x02,
    0x00, 0x00, 0x00, 0x00, 0x00, 0x00,               -- descriptor block 1
    0x00, 0x00, 0x00, 0xFD, 0x00,                     -- descriptor block 2
    0x00, 0xC8, 0x00, 0xC8, 0x64, 0x00, 0x0A, 0x20, 0x20, 0x20,
    0x20, 0x20,
    0x20,
    0x00, 0x00, 0x00, 0xFC, 0x00,                     -- descriptor block 3
    0x56, 0x42, 0x4F, 0x58, 0x20, 0x6D, 0x6F, 0x6E, 0x69, 0x74, 0x6F, 0x72,
    0x0A,
    0x00, 0x00, 0x00, 0x10, 0x00,                     -- descriptor block 4
    0x0A, 0x20, 0x20, 0x20, 0x20, 0x20,
    0x20, 0x20, 0x20, 0x20, 0x20, 0x20,
    0x20,
    0x00,                                             -- number of extensions
    0x00 ]                                            -- checksum goes here

/-- The local `clock` of `vbox_set_edid`:
`(width + 6) * (height + 6) * 60 / 10000` in `int` arithmetic. -/
def edid_clock (width height : Int) : Int :=
  Int.tdiv (wrapS32 (wrapS32 (wrapS32 (width + 6) * wrapS32 (height + 6)) * 60)) 10000

/-- The array `edid` after the ten patch assignments of `vbox_set_edid`
(each value is converted to `unsigned char` by the store). -/
def edid_patched (width height : Int) : List Nat :=
  let clock := edid_clock width height
  let edid := edid_template
  let edid := edid.set 12 (toU8 (andMask width 0xff))
  let edid := edid.set 13 (toU8 (width >>> 8))
  let edid := edid.set 14 (toU8 (andMask height 0xff))
  let edid := edid.set 15 (toU8 (height >>> 8))
  let edid := edid.set 54 (toU8 (andMask clock 0xff))
  let edid := edid.set 55 (toU8 (clock >>> 8))
  let edid := edid.set 56 (toU8 (andMask width 0xff))
  let edid := edid.set 58 (toU8 (andMask (width >>> 4) 0xf0))
  let edid := edid.set 59 (toU8 (andMask height 0xff))
  let edid := edid.set 61 (toU8 (andMask (height >>> 4) 0xf0))
  edid

/-- The loop `for (i = 0; i < EDID_SIZE - 1; ++i) sum += edid[i];` on an
`unsigned int` accumulator. -/
def edid_sum (edid : List Nat) : Nat :=
  (edid.take (EDID_SIZE - 1)).foldl (fun sum b => wrapU32 (sum + b)) 0

/-- The block handed to `drm_connector_update_edid_property` by
`vbox_set_edid`: the patched array with the checksum stored in its last byte. -/
def vbox_set_edid (width height : Int) : List Nat :=
  let edid := edid_patched width height
  let sum := edid_sum edid
  edid.set (EDID_SIZE - 1) ((0x100 - (sum &&& 0xFF)) &&& 0xFF)

/-! ## Constants declared in headers

The header files of the driver are not part of the translated sources, so
the constants they declare are collected in a record that every operation
takes as a parameter. -/

/-- Constants used by `vbox_mode.c` and declared in `vbox_drv.h`,
`vboxvideo.h` and `vboxvideo_vbe.h`. -/
structure Header where
  VBOX_MAX_CURSOR_WIDTH : Nat
  VBOX_MAX_CURSOR_HEIGHT : Nat
  VBVA_SCREEN_F_ACTIVE : Nat
  VBVA_SCREEN_F_DISABLED : Nat
  VBVA_SCREEN_F_BLANK : Nat
  VBVA_MIN_BUFFER_SIZE : Nat
  VBE_DISPI_INDEX_XRES : Nat
  VBE_DISPI_INDEX_YRES : Nat
  VBE_DISPI_INDEX_BPP : Nat
  VBE_DISPI_INDEX_ENABLE : Nat
  VBE_DISPI_INDEX_VIRT_WIDTH : Nat
  VBE_DISPI_INDEX_X_OFFSET : Nat
  VBE_DISPI_INDEX_Y_OFFSET : Nat
  VBE_DISPI_ENABLED : Nat
  VBOX_MOUSE_POINTER_VISIBLE : Nat
  VBOX_MOUSE_POINTER_ALPHA : Nat
  VBOX_MOUSE_POINTER_SHAPE : Nat

/-- The values the constants have in the VirtualBox guest headers; used to
instantiate the results at a concrete configuration. -/
def vboxHeader : Header where
  VBOX_MAX_CURSOR_WIDTH := 64
  VBOX_MAX_CURSOR_HEIGHT := 64
  VBVA_SCREEN_F_ACTIVE := 0x0001
  VBVA_SCREEN_F_DISABLED := 0x0002
  VBVA_SCREEN_F_BLANK := 0x0004
  VBVA_MIN_BUFFER_SIZE := 65536
  VBE_DISPI_INDEX_XRES := 0x1
  VBE_DISPI_INDEX_YRES := 0x2
  VBE_DISPI_INDEX_BPP := 0x3
  VBE_DISPI_INDEX_ENABLE := 0x4
  VBE_DISPI_INDEX_VIRT_WIDTH := 0x6
  VBE_DISPI_INDEX_X_OFFSET := 0x8
  VBE_DISPI_INDEX_Y_OFFSET := 0x9
  VBE_DISPI_ENABLED := 0x01
  VBOX_MOUSE_POINTER_VISIBLE := 0x0001
  VBOX_MOUSE_POINTER_ALPHA := 0x0002
  VBOX_MOUSE_POINTER_SHAPE := 0x0004

/-- The errno constant `EINVAL`. -/
def EINVAL : Int := 22

/-- The errno constant `ENOMEM`. -/
def ENOMEM : Int := 12

/-! ## Cursor plane: validation (`vbox_cursor_atomic_check`) -/

/-- The function `vbox_cursor_atomic_check` on the plane state's `crtc_w` and
`crtc_h` (both `u32`). -/
def vbox_cursor_atomic_check (H : Header) (crtc_w crtc_h : Nat) : Int :=
  let width := crtc_w
  let height := crtc_h
  if width > H.VBOX_MAX_CURSOR_WIDTH || height > H.VBOX_MAX_CURSOR_HEIGHT ||
      width == 0 || height == 0 then
    -EINVAL
  else
    0

/-! ## Cursor plane: image copy and mask derivation (`copy_cursor_image`) -/

/-- A byte buffer addressed by byte offset from its base pointer. -/
abbrev Mem := Nat → Nat

/-- A buffer holding the given bytes from offset 0 on (zero elsewhere). -/
def listMem (l : List Nat) : Mem := fun k => l.getD k 0

/-- The call `memcpy(dst + off, src, n)` for non-overlapping buffers. -/
def memcpy (dst : Mem) (off : Nat) (src : Mem) (n : Nat) : Mem :=
  fun k => if off ≤ k ∧ k < off + n then src (k - off) else dst k

/-- The read `((u32 *)src)[k]` on a little-endian machine. -/
def read_u32 (src : Mem) (k : Nat) : Nat :=
  src (4 * k) + src (4 * k + 1) * 2 ^ 8 + src (4 * k + 2) * 2 ^ 16 +
    src (4 * k + 3) * 2 ^ 24

/-- The statement `dst[k] |= v` on a `u8` buffer. -/
def or_byte (dst : Mem) (k v : Nat) : Mem :=
  Function.update dst k ((dst k ||| v) % 256)

/-- The inner loop body of `copy_cursor_image` for pixel (i, j). -/
def copy_cursor_pixel (src : Mem) (width line_size i : Nat) (dst : Mem) (j : Nat) : Mem :=
  if read_u32 src (wrapU32 (wrapU32 (i * width) + j)) > 0xf0000000 then
    or_byte dst (wrapSize (wrapSize (i * line_size) + j / 8)) (0x80 >>> (j % 8))
  else
    dst

/-- The function `copy_cursor_image(src, dst, width, height, mask_size)`;
the result is the content of `dst` afterwards. -/
def copy_cursor_image (src dst : Mem) (width height mask_size : Nat) : Mem :=
  let line_size := wrapU32 (width + 7) / 8
  let dst := memcpy dst mask_size src (wrapU32 (wrapU32 (width * height) * 4))
  (List.range height).foldl
    (fun dst i => (List.range width).foldl (copy_cursor_pixel src width line_size i) dst)
    dst

/-- The local `mask_size` of `vbox_cursor_atomic_update`:
`((width + 7) / 8 * height + 3) & ~3` in `u32` arithmetic. -/
def cursor_mask_size (width height : Nat) : Nat :=
  wrapU32 (wrapU32 (wrapU32 (width + 7) / 8 * height) + 3) &&& 0xFFFFFFFC

/-- The local `data_size` of `vbox_cursor_atomic_update`:
`width * height * 4 + mask_size`, a `u32` product added to a `size_t`. -/
def cursor_data_size (width height : Nat) : Nat :=
  wrapSize (wrapU32 (wrapU32 (width * height) * 4) + cursor_mask_size width height)

/-- What the loop body of `copy_cursor_image` for pixel (i, j) does to the
byte at offset `k` of the destination, whose value is `x` before. -/
def cursor_cell (src : Mem) (width line_size k i : Nat) (x j : Nat) : Nat :=
  if read_u32 src (wrapU32 (wrapU32 (i * width) + j)) > 0xf0000000 ∧
      wrapSize (wrapSize (i * line_size) + j / 8) = k
  then (x ||| (0x80 >>> (j % 8))) % 256 else x

/-! ## Device state

`struct vbox_crtc` and the `struct vbox_connector` that `vbox_mode_init`
creates for it (one per index, in the same order) are one record, the Display.
Calls that leave the file (host commands, I/O port writes, pin/unpin of buffer
objects, replies to the mode probe) are recorded in a trace, oldest first. -/

/-- The fields of `struct drm_framebuffer` that the driver reads; `addr` is
the address of the object, which is what pointer comparisons compare. -/
structure drm_framebuffer where
  addr : Nat
  width : Nat
  height : Nat
  pitch : Nat
  cpp : Nat
  obj : Nat
  hot_x : Int
  hot_y : Int
  deriving DecidableEq

/-- The fields of `struct drm_display_mode` that the driver reads. -/
structure drm_display_mode where
  hdisplay : Nat
  vdisplay : Nat
  deriving DecidableEq

/-- A Display: `struct vbox_crtc` (with the fields of its `struct drm_crtc`
base that the driver reads: `enabled`, `y` and `primary->fb`, here `enabled`,
`base_y` and `primary_fb`) and the `mode_hint` of its connector. The fields
`x`, `y`, `x_hint` and `y_hint` are `u32` in the C structure; here they hold
the integer that was stored, and every read goes through the conversion the
reading expression applies (`toU32`, `wrapS32`, `toU16`). -/
structure vbox_crtc where
  enabled : Bool
  primary_fb : Option drm_framebuffer
  base_y : Int
  blanked : Bool
  disconnected : Bool
  crtc_id : Nat
  fb_offset : Nat
  cursor_enabled : Bool
  x_hint : Int
  y_hint : Int
  width : Nat
  height : Nat
  x : Int
  y : Int
  mode_hint_width : Nat
  mode_hint_height : Nat
  mode_hint_disconnected : Bool
  deriving DecidableEq

/-- The suggested-offset property set by `vbox_get_modes`. -/
inductive SuggestedProperty where
  | suggested_x
  | suggested_y
  deriving DecidableEq

/-- One call that leaves `vbox_mode.c`. -/
inductive Event where
  | write_ioport (index data : Nat)
  | process_display_info (display : Nat) (origin_x origin_y : Int)
      (start_offset pitch width height bpp flags : Nat)
  | info_view (view_index view_offset view_size max_screen_size : Nat)
  | update_input_mapping (origin_x origin_y width height : Nat)
  | update_pointer_shape (flags hot_x hot_y width height : Nat)
      (pixels : Option (List Nat)) (len : Nat)
  | report_flags_location
  | report_caps
  | report_hotplug
  | bo_pin (obj : Nat)
  | bo_unpin (obj : Nat)
  | add_modes_noedid (hdisplay vdisplay : Nat)
  | mode_probed_add (hdisplay vdisplay vrefresh : Nat) (preferred : Bool)
  | update_edid_property (edid : List Nat)
  | property_set_value (property : SuggestedProperty) (val : Nat)
  deriving DecidableEq

/-- The device instance `struct vbox_private`, with the buffer objects' pin
counts and device offsets and the trace of outgoing calls. `fbdev_afb` is the
address of the fbdev console framebuffer `vbox->fbdev->afb`; `hw_mutex` is
true while the hardware-access lock is held. -/
structure vbox_private where
  crtcs : List vbox_crtc
  fbdev_afb : Nat
  available_vram_size : Nat
  input_mapping_width : Nat
  input_mapping_height : Nat
  single_framebuffer : Bool
  initial_mode_queried : Bool
  cursor_data : Mem
  hw_mutex : Bool
  pin_count : Nat → Nat
  gpu_offset : Nat → Nat
  trace : List Event

/-- Append outgoing calls to the trace. -/
def emit (vbox : vbox_private) (evs : List Event) : vbox_private :=
  { vbox with trace := vbox.trace ++ evs }

/-- Conversion of an integer value to `u16`. -/
def toU16 (x : Int) : Nat := (x % 65536).toNat

/-! ## Coordinate mapper (`vbox_set_up_input_mapping`) -/

/-- The first loop of `vbox_set_up_input_mapping` over the crtc list, started
with the locals `fb1` and `single_framebuffer`; the result is the value of
`single_framebuffer` when the loop ends (by exhaustion or by `break`). -/
def scan_single_framebuffer (fbdev_afb : Nat) :
    List vbox_crtc → Option drm_framebuffer → Bool → Bool
  | [], _, single_framebuffer => single_framebuffer
  | crtci :: rest, none, single_framebuffer =>
    let fb1 := crtci.primary_fb
    if fb1.map (fun fb => fb.addr) == some fbdev_afb then
      single_framebuffer
    else
      scan_single_framebuffer fbdev_afb rest fb1 single_framebuffer
  | crtci :: rest, some fb1, single_framebuffer =>
    match crtci.primary_fb with
    | some fb =>
      if fb1.addr != fb.addr then
        scan_single_framebuffer fbdev_afb rest (some fb1) false
      else
        scan_single_framebuffer fbdev_afb rest (some fb1) single_framebuffer
    | none => scan_single_framebuffer fbdev_afb rest (some fb1) single_framebuffer

/-- The second loop of `vbox_set_up_input_mapping`: the framebuffer of the
first crtc that has one. -/
def first_framebuffer : List vbox_crtc → Option drm_framebuffer
  | [] => none
  | crtci :: rest =>
    match crtci.primary_fb with
    | none => first_framebuffer rest
    | some fb => some fb

/-- The macro `max_t(u16, a, b)`. -/
def max_t_u16 (a b : Int) : Nat := max (toU16 a) (toU16 b)

/-- The third loop of `vbox_set_up_input_mapping` over the connector list,
started with the `u16` locals `width` and `height`. -/
def span_of_screens : List vbox_crtc → Nat × Nat → Nat × Nat
  | [], wh => wh
  | c :: rest, (width, height) =>
    span_of_screens rest
      (max_t_u16 width (c.x_hint + c.mode_hint_width),
       max_t_u16 height (c.y_hint + c.mode_hint_height))

/-- The function `vbox_set_up_input_mapping`: the return value and the device
state afterwards. -/
def vbox_set_up_input_mapping (vbox : vbox_private) : Bool × vbox_private :=
  let single_framebuffer := scan_single_framebuffer vbox.fbdev_afb vbox.crtcs none true
  let old_single_framebuffer := vbox.single_framebuffer
  if single_framebuffer then
    let vbox := { vbox with single_framebuffer := true }
    let vbox :=
      match first_framebuffer vbox.crtcs with
      | some fb => { vbox with input_mapping_width := fb.width,
                               input_mapping_height := fb.height }
      | none => vbox
    (old_single_framebuffer != vbox.single_framebuffer, vbox)
  else
    let (width, height) := span_of_screens vbox.crtcs (0, 0)
    let vbox := { vbox with single_framebuffer := false,
                            input_mapping_width := width,
                            input_mapping_height := height }
    (old_single_framebuffer != vbox.single_framebuffer, vbox)

/-! ## Mode-set engine -/

/-- The condition guarding the legacy register writes in `vbox_do_modeset`,
`crtc_id == 0 && enabled && fb_offset / pitch < 0xffff - crtc->y &&
fb_offset % (bpp / 8) == 0`, evaluated left to right with short-circuit;
`none` is a division by zero. The `<` compares as `unsigned int`. -/
def legacy_guard (crtc : vbox_crtc) (bpp pitch : Nat) : Option Bool :=
  if crtc.crtc_id == 0 && crtc.enabled then
    if pitch == 0 then none
    else if wrapU32 (crtc.fb_offset / pitch) < toU32 (0xffff - crtc.base_y) then
      if bpp / 8 == 0 then none
      else some (crtc.fb_offset % (bpp / 8) == 0)
    else some false
  else some false

/-- The `u16` local `flags` of `vbox_do_modeset`. -/
def screen_flags (H : Header) (crtc : vbox_crtc) : Nat :=
  let flags := H.VBVA_SCREEN_F_ACTIVE
  let flags := flags ||| (if crtc.enabled && !crtc.blanked then 0 else H.VBVA_SCREEN_F_BLANK)
  let flags := flags ||| (if crtc.disconnected then H.VBVA_SCREEN_F_DISABLED else 0)
  flags % 2 ^ 16

/-- The function `vbox_do_modeset` on one Display: the calls it makes, in
order. `none` is a fault (the framebuffer of an enabled crtc is NULL, or a
division by zero). The locals `bpp` and `pitch` are `int`; they are held as
their 32-bit patterns and read as `int` (`wrapS32`) where the arithmetic is
signed (`width * bpp / 8`, `pitch * 8 / bpp`); products wrap at 32 bits
before the division. The start offset `x * bpp / 8 + y * pitch` is `u32`
arithmetic. -/
def vbox_do_modeset (H : Header) (vbox : vbox_private) (crtc : vbox_crtc) :
    Option (List Event) := do
  let width : Nat := if crtc.width != 0 then crtc.width else 640
  let height : Nat := if crtc.height != 0 then crtc.height else 480
  let bpp : Nat ←
    if crtc.enabled then crtc.primary_fb.map (fun fb => fb.cpp * 8) else some 32
  let pitch : Nat ←
    if crtc.enabled then crtc.primary_fb.map (fun fb => fb.pitch)
    else some (toU32 (Int.tdiv (wrapS32 (wrapS32 (width : Nat) * wrapS32 (bpp : Nat))) 8))
  let x_offset := wrapS32 (if vbox.single_framebuffer then crtc.x else crtc.x_hint)
  let y_offset := wrapS32 (if vbox.single_framebuffer then crtc.y else crtc.y_hint)
  let legacy ← legacy_guard crtc bpp pitch
  let cpp8 : Nat := (crtc.primary_fb.map (fun fb => fb.cpp * 8)).getD 0
  let regs :=
    if legacy then
      [ Event.write_ioport H.VBE_DISPI_INDEX_XRES (toU16 width),
        Event.write_ioport H.VBE_DISPI_INDEX_YRES (toU16 height),
        Event.write_ioport H.VBE_DISPI_INDEX_VIRT_WIDTH
          (toU16 (Int.tdiv (wrapS32 (wrapS32 (pitch : Nat) * 8)) (wrapS32 (bpp : Nat)))),
        Event.write_ioport H.VBE_DISPI_INDEX_BPP (toU16 cpp8),
        Event.write_ioport H.VBE_DISPI_INDEX_ENABLE (toU16 H.VBE_DISPI_ENABLED),
        Event.write_ioport H.VBE_DISPI_INDEX_X_OFFSET
          (toU16 ((crtc.fb_offset % pitch / bpp * 8 : Nat) + crtc.x)),
        Event.write_ioport H.VBE_DISPI_INDEX_Y_OFFSET
          (toU16 ((crtc.fb_offset / pitch : Nat) + crtc.y)) ]
    else []
  let flags := screen_flags H crtc
  pure (regs ++
    [ Event.process_display_info crtc.crtc_id x_offset y_offset
        (wrapU32 (wrapU32 (toU32 crtc.x * wrapU32 bpp) / 8 +
                  wrapU32 (toU32 crtc.y * wrapU32 pitch)))
        pitch width height (if crtc.blanked then 0 else bpp) flags ])

/-- The function `vbox_set_view`: return value and the calls made.
`alloc_ok` tells whether `hgsmi_buffer_alloc` returns a buffer. The event
stands for the submitted `struct vbva_infoview` (all fields `u32`). -/
def vbox_set_view (H : Header) (vbox : vbox_private) (crtc : vbox_crtc) (alloc_ok : Bool) :
    Int × List Event :=
  if !alloc_ok then
    (-ENOMEM, [])
  else
    (0, [ Event.info_view crtc.crtc_id crtc.fb_offset
            (toU32 ((vbox.available_vram_size : Int) - (crtc.fb_offset : Int) +
                      (crtc.crtc_id : Int) * (H.VBVA_MIN_BUFFER_SIZE : Int)))
            (toU32 ((vbox.available_vram_size : Int) - (crtc.fb_offset : Int))) ])

/-- The loop of `vbox_crtc_set_base_and_mode` that calls `vbox_do_modeset` on
every crtc of the list other than the one being set (position `idx`). -/
def modeset_other_crtcs (H : Header) (vbox : vbox_private) (idx : Nat) :
    List (Nat × vbox_crtc) → Option (List Event)
  | [] => some []
  | (i, crtci) :: rest =>
    if i == idx then
      modeset_other_crtcs H vbox idx rest
    else do
      let evs ← vbox_do_modeset H vbox crtci
      let more ← modeset_other_crtcs H vbox idx rest
      pure (evs ++ more)

/-- The function `vbox_crtc_set_base_and_mode` on the crtc at position `idx`
of the crtc list. `none` is a fault (NULL `mode`, or a fault of
`vbox_do_modeset`). The value of `vbox_set_view` is dropped, as in the source. -/
def vbox_crtc_set_base_and_mode (H : Header) (vbox : vbox_private) (idx : Nat)
    (fb : Option drm_framebuffer) (mode : Option drm_display_mode) (x y : Int)
    (alloc_ok : Bool) : Option vbox_private := do
  let crtc ← vbox.crtcs[idx]?
  let vbox := { vbox with hw_mutex := true }
  let crtc :=
    match fb with
    | some f => { crtc with fb_offset := wrapU32 (vbox.gpu_offset f.obj) }
    | none => crtc
  let m ← mode
  let crtc := { crtc with width := m.hdisplay, height := m.vdisplay, x := x, y := y }
  let vbox := { vbox with crtcs := vbox.crtcs.set idx crtc }
  let (changed, vbox) :=
    if mode.isSome then vbox_set_up_input_mapping vbox else (false, vbox)
  let vbox ←
    if changed then
      (modeset_other_crtcs H vbox idx vbox.crtcs.enum).map (emit vbox)
    else some vbox
  let vbox := emit vbox (vbox_set_view H vbox crtc alloc_ok).2
  let vbox := emit vbox (← vbox_do_modeset H vbox crtc)
  let vbox :=
    if mode.isSome then
      emit vbox [Event.update_input_mapping 0 0 vbox.input_mapping_width
                   vbox.input_mapping_height]
    else vbox
  pure { vbox with hw_mutex := false }

/-- Modelled from the spec: `vbox_bo_pin` lives in another file of the driver;
of it the spec says that a Surface has a pin count and that pinning can fail
for lack of device memory. `ret` is the value the call returns: on 0 the pin
count of the object goes up by one (recorded as `bo_pin`), otherwise nothing
changes. -/
def vbox_bo_pin (vbox : vbox_private) (obj : Nat) (ret : Int) : Int × vbox_private :=
  if ret == 0 then
    (0, emit { vbox with pin_count := Function.update vbox.pin_count obj (vbox.pin_count obj + 1) }
          [Event.bo_pin obj])
  else
    (ret, vbox)

/-- Modelled from the spec: `vbox_bo_unpin` lives in another file of the
driver; it takes one off the pin count of the object (recorded as `bo_unpin`). -/
def vbox_bo_unpin (vbox : vbox_private) (obj : Nat) : vbox_private :=
  emit { vbox with pin_count := Function.update vbox.pin_count obj (vbox.pin_count obj - 1) }
    [Event.bo_unpin obj]

/-- The function `vbox_crtc_mode_set` on the crtc at position `idx`: return
value and device state afterwards. `pin_ret` is what `vbox_bo_pin` returns and
`alloc_ok` whether the set-view buffer can be allocated. `none` is a fault
(no such crtc, NULL new framebuffer, or a fault further down). -/
def vbox_crtc_mode_set (H : Header) (vbox : vbox_private) (idx : Nat)
    (mode : drm_display_mode) (x y : Int) (old_fb : Option drm_framebuffer)
    (pin_ret : Int) (alloc_ok : Bool) : Option (Int × vbox_private) := do
  let crtc ← vbox.crtcs[idx]?
  let new_fb ← crtc.primary_fb
  let (ret, vbox) := vbox_bo_pin vbox new_fb.obj pin_ret
  if ret != 0 then
    pure (ret, vbox)
  else
    let vbox ← vbox_crtc_set_base_and_mode H vbox idx (some new_fb) (some mode) x y alloc_ok
    let vbox :=
      match old_fb with
      | some f => vbox_bo_unpin vbox f.obj
      | none => vbox
    pure (0, vbox)

/-! ## Cursor plane: update and disable -/

/-- The macro `min_t(u32, a, b)`. -/
def min_t_u32 (a b : Int) : Nat := min (toU32 a) (toU32 b)

/-- The function `vbox_cursor_atomic_update` for the crtc at position `idx`,
the new plane state (`fb`, `crtc_w`, `crtc_h`) and the framebuffer `old_fb` of
the old plane state. `kmap` is what `vbox_bo_kmap` returns: the mapped ARGB
source, or `none` for an error pointer. The pointer-shape event carries the
first `data_size` bytes of `cursor_data`. -/
def vbox_cursor_atomic_update (H : Header) (vbox : vbox_private) (idx : Nat)
    (fb : drm_framebuffer) (old_fb : Option drm_framebuffer) (crtc_w crtc_h : Nat)
    (kmap : Option Mem) : Option vbox_private := do
  let vbox_crtc ← vbox.crtcs[idx]?
  let width := crtc_w
  let height := crtc_h
  if some fb.addr == old_fb.map (fun f => f.addr) then
    pure vbox
  else
    let vbox := { vbox with hw_mutex := true }
    let vbox := { vbox with crtcs := vbox.crtcs.set idx { vbox_crtc with cursor_enabled := true } }
    match kmap with
    | none => pure vbox
    | some src =>
      let mask_size := cursor_mask_size width height
      let data_size := cursor_data_size width height
      let vbox := { vbox with
        cursor_data := copy_cursor_image src vbox.cursor_data width height mask_size }
      let flags := H.VBOX_MOUSE_POINTER_VISIBLE ||| H.VBOX_MOUSE_POINTER_SHAPE |||
        H.VBOX_MOUSE_POINTER_ALPHA
      let vbox := emit vbox
        [ Event.update_pointer_shape flags
            (min_t_u32 (max fb.hot_x 0) width) (min_t_u32 (max fb.hot_y 0) height)
            width height (some ((List.range data_size).map vbox.cursor_data)) data_size ]
      pure { vbox with hw_mutex := false }

/-- The function `vbox_cursor_atomic_disable` for the crtc at position `idx`
(the crtc of the old plane state). -/
def vbox_cursor_atomic_disable (vbox : vbox_private) (idx : Nat) : Option vbox_private := do
  let vbox_crtc ← vbox.crtcs[idx]?
  let vbox := { vbox with hw_mutex := true }
  let vbox := { vbox with crtcs := vbox.crtcs.set idx { vbox_crtc with cursor_enabled := false } }
  let cursor_enabled :=
    vbox.crtcs.foldl (fun cursor_enabled crtci =>
      if crtci.cursor_enabled then true else cursor_enabled) false
  let vbox :=
    if !cursor_enabled then
      emit vbox [Event.update_pointer_shape 0 0 0 0 0 none 0]
    else vbox
  pure { vbox with hw_mutex := false }

/-! ## Display enumeration (`vbox_get_modes`) -/

/-- The function `vbox_get_modes` for the connector of the crtc at position
`idx`: return value and device state afterwards. `drm_add_modes_noedid` and
`drm_cvt_mode` are DRM core functions: `noedid_count h v` is the number of
modes the former adds for the bound h x v, and `cvt_ok` tells whether the
latter returns a mode. `mode_probed_add` records the arguments given to
`drm_cvt_mode` and whether the mode was marked preferred. The hints are `u32`
fields: `x_hint != -1` compares with the all-ones pattern, and the value
handed to `drm_object_property_set_value` (a `uint64_t` parameter) is the
hint zero-extended. -/
def vbox_get_modes (vbox : vbox_private) (idx : Nat) (noedid_count : Nat → Nat → Nat)
    (cvt_ok : Bool) : Option (Nat × vbox_private) := do
  let vbox_crtc ← vbox.crtcs[idx]?
  let vbox := emit vbox [Event.report_flags_location]
  let vbox := if vbox_crtc.crtc_id == 0 then emit vbox [Event.report_caps] else vbox
  if !vbox.initial_mode_queried then
    let vbox :=
      if vbox_crtc.crtc_id == 0 then
        emit { vbox with initial_mode_queried := true } [Event.report_hotplug]
      else vbox
    pure (noedid_count 800 600, emit vbox [Event.add_modes_noedid 800 600])
  else
    let vbox := emit vbox [Event.add_modes_noedid 2560 1600]
    let num_modes := noedid_count 2560 1600
    let preferred_width :=
      if vbox_crtc.mode_hint_width != 0 then vbox_crtc.mode_hint_width else 1024
    let preferred_height :=
      if vbox_crtc.mode_hint_height != 0 then vbox_crtc.mode_hint_height else 768
    let (vbox, num_modes) :=
      if cvt_ok then
        (emit vbox [Event.mode_probed_add preferred_width preferred_height 60 true],
         wrapU32 (num_modes + 1))
      else (vbox, num_modes)
    let vbox := emit vbox [Event.update_edid_property
      (vbox_set_edid preferred_width preferred_height)]
    let vbox :=
      if toU32 vbox_crtc.x_hint != toU32 (-1) then
        emit vbox [Event.property_set_value SuggestedProperty.suggested_x
          (toU32 vbox_crtc.x_hint)]
      else
        emit vbox [Event.property_set_value SuggestedProperty.suggested_x 0]
    let vbox :=
      if toU32 vbox_crtc.y_hint != toU32 (-1) then
        emit vbox [Event.property_set_value SuggestedProperty.suggested_y
          (toU32 vbox_crtc.y_hint)]
      else
        emit vbox [Event.property_set_value SuggestedProperty.suggested_y 0]
    pure (num_modes, vbox)

/-! ## Power state (`vbox_crtc_dpms`) -/

/-- The DRM constant `DRM_MODE_DPMS_ON`. -/
def DRM_MODE_DPMS_ON : Int := 0

/-- The DRM constant `DRM_MODE_DPMS_STANDBY`. -/
def DRM_MODE_DPMS_STANDBY : Int := 1

/-- The DRM constant `DRM_MODE_DPMS_SUSPEND`. -/
def DRM_MODE_DPMS_SUSPEND : Int := 2

/-- The DRM constant `DRM_MODE_DPMS_OFF`. -/
def DRM_MODE_DPMS_OFF : Int := 3

/-- The function `vbox_crtc_dpms` on the crtc at position `idx`. `none` is a
fault (no such crtc, or a fault of `vbox_do_modeset`). -/
def vbox_crtc_dpms (H : Header) (vbox : vbox_private) (idx : Nat) (mode : Int) :
    Option vbox_private := do
  let vbox_crtc ← vbox.crtcs[idx]?
  let vbox_crtc :=
    if mode == DRM_MODE_DPMS_ON then
      { vbox_crtc with blanked := false }
    else if mode == DRM_MODE_DPMS_STANDBY || mode == DRM_MODE_DPMS_SUSPEND ||
        mode == DRM_MODE_DPMS_OFF then
      { vbox_crtc with blanked := true }
    else vbox_crtc
  let vbox := { vbox with crtcs := vbox.crtcs.set idx vbox_crtc }
  let vbox := { vbox with hw_mutex := true }
  let vbox := emit vbox (← vbox_do_modeset H vbox vbox_crtc)
  pure { vbox with hw_mutex := false }

/-! ## Observations on the trace -/

/-- The call is a pin or an unpin of a buffer object. -/
def Event.is_pin_change : Event → Bool
  | Event.bo_pin _ => true
  | Event.bo_unpin _ => true
  | _ => false

/-- The call is a write to a legacy register (an I/O port write). -/
def Event.is_register_write : Event → Bool
  | Event.write_ioport _ _ => true
  | _ => false

/-- The pin counts after the pins and unpins of a stretch of the trace,
starting from the counts `pins`. -/
def replay_pins (pins : Nat → Nat) : List Event → Nat → Nat
  | [] => pins
  | Event.bo_pin obj :: rest => replay_pins (Function.update pins obj (pins obj + 1)) rest
  | Event.bo_unpin obj :: rest => replay_pins (Function.update pins obj (pins obj - 1)) rest
  | _ :: rest => replay_pins pins rest

/-- A Display on which `vbox_do_modeset` does not fault: if it is enabled it
has a framebuffer, with a non-zero pitch and a non-zero pixel size. -/
def crtc_wf (crtc : vbox_crtc) : Prop :=
  crtc.enabled = true →
    ∃ fb, crtc.primary_fb = some fb ∧ fb.pitch ≠ 0 ∧ fb.cpp ≠ 0

/-! ## Steps of `vbox_crtc_set_base_and_mode` -/

/-- The crtc after the assignments at the head of
`vbox_crtc_set_base_and_mode`: `fb_offset` (when a framebuffer is given),
`width`, `height`, `x` and `y`. -/
def base_and_mode_crtc (vbox : vbox_private) (crtc : vbox_crtc)
    (fb : Option drm_framebuffer) (m : drm_display_mode) (x y : Int) : vbox_crtc :=
  { (match fb with
     | some f => { crtc with fb_offset := wrapU32 (vbox.gpu_offset f.obj) }
     | none => crtc)
    with width := m.hdisplay, height := m.vdisplay, x := x, y := y }

/-- The device after those assignments and the call of
`vbox_set_up_input_mapping` (lock held), with the value that call returns. -/
def base_and_mode_layout (vbox : vbox_private) (idx : Nat) (crtc : vbox_crtc) :
    Bool × vbox_private :=
  vbox_set_up_input_mapping
    { vbox with hw_mutex := true, crtcs := vbox.crtcs.set idx crtc }

/-- The rest of `vbox_crtc_set_base_and_mode`, from the test of the value of
`vbox_set_up_input_mapping` to `mutex_unlock`, for the crtc `crtc` at
position `idx`. -/
def base_and_mode_finish (H : Header) (layout : Bool × vbox_private) (idx : Nat)
    (crtc : vbox_crtc) (alloc_ok : Bool) : Option vbox_private := do
  let (changed, vbox) := layout
  let vbox ←
    if changed then
      (modeset_other_crtcs H vbox idx vbox.crtcs.enum).map (emit vbox)
    else some vbox
  let vbox := emit vbox (vbox_set_view H vbox crtc alloc_ok).2
  let vbox := emit vbox (← vbox_do_modeset H vbox crtc)
  let vbox :=
    emit vbox [Event.update_input_mapping 0 0 vbox.input_mapping_width
                 vbox.input_mapping_height]
  pure { vbox with hw_mutex := false }

/-- The call is a display-info command. -/
def Event.is_display_info : Event → Bool
  | Event.process_display_info _ _ _ _ _ _ _ _ _ => true
  | _ => false

/-- The call is a set-view command. -/
def Event.is_info_view : Event → Bool
  | Event.info_view _ _ _ _ => true
  | _ => false

/-- The call is an input-mapping command. -/
def Event.is_input_mapping : Event → Bool
  | Event.update_input_mapping _ _ _ _ => true
  | _ => false

/-- The unpin of the old framebuffer at the end of `vbox_crtc_mode_set`, as a
stretch of the trace. -/
def old_fb_unpin (old_fb : Option drm_framebuffer) : List Event :=
  match old_fb with
  | some f => [Event.bo_unpin f.obj]
  | none => []

/-! ## Properties named by the specification -/

/-- The addresses of the Surfaces shown by the Displays that have one, in
list order. -/
def active_surfaces (crtcs : List vbox_crtc) : List Nat :=
  crtcs.filterMap (fun c => c.primary_fb.map (fun fb => fb.addr))

/-- Every Display that has an active Surface shows one and the same Surface. -/
def share_one_surface (crtcs : List vbox_crtc) : Prop :=
  ∀ a ∈ active_surfaces crtcs, ∀ b ∈ active_surfaces crtcs, a = b

instance (crtcs : List vbox_crtc) : Decidable (share_one_surface crtcs) := by
  unfold share_one_surface
  infer_instance

/-- The byte regions `[o1, o1 + s1)` and `[o2, o2 + s2)` have no byte in
common. -/
def regions_disjoint (o1 s1 o2 s2 : Nat) : Prop :=
  ∀ a, ¬ (o1 ≤ a ∧ a < o1 + s1 ∧ o2 ≤ a ∧ a < o2 + s2)

/-! ## Sample configurations -/

/-- A framebuffer of the given address and size (32 bpp), backed by the
buffer object `obj`. -/
def sample_fb (addr width height obj : Nat) : drm_framebuffer :=
  { addr := addr, width := width, height := height, pitch := width * 4, cpp := 4,
    obj := obj, hot_x := 0, hot_y := 0 }

/-- A Display with the given index, framebuffer and hint, all else zero. -/
def sample_crtc (crtc_id : Nat) (fb : Option drm_framebuffer)
    (x_hint y_hint : Int) (hint_width hint_height : Nat) : vbox_crtc :=
  { enabled := fb.isSome, primary_fb := fb, base_y := 0, blanked := false,
    disconnected := false, crtc_id := crtc_id, fb_offset := 0, cursor_enabled := false,
    x_hint := x_hint, y_hint := y_hint, width := 0, height := 0, x := 0, y := 0,
    mode_hint_width := hint_width, mode_hint_height := hint_height,
    mode_hint_disconnected := false }

/-- A device with the given Displays; the fbdev console framebuffer is at
address 1, nothing is pinned, the lock is free and the trace is empty. -/
def sample_device (crtcs : List vbox_crtc) : vbox_private :=
  { crtcs := crtcs, fbdev_afb := 1, available_vram_size := 0x1000000,
    input_mapping_width := 0, input_mapping_height := 0, single_framebuffer := false,
    initial_mode_queried := false, cursor_data := fun _ => 0, hw_mutex := false,
    pin_count := fun _ => 0, gpu_offset := fun _ => 0, trace := [] }

/-- Two Displays without Surface, the first with its cursor enabled and the
second with its cursor enabled or not. -/
def sample_cursor_device (second : Bool) : vbox_private :=
  sample_device [{ sample_crtc 0 none 0 0 0 0 with cursor_enabled := true },
    { sample_crtc 1 none 0 0 0 0 with cursor_enabled := second }]

/-- Two Displays with a 1280 x 1024 hint each; `queried` is the value of the
one-shot flag `initial_mode_queried`. -/
def sample_probe_device (queried : Bool) : vbox_private :=
  { sample_device [sample_crtc 0 none 0 0 1280 1024, sample_crtc 1 none 1280 0 1280 1024]
    with initial_mode_queried := queried }

/-- A stand-in for the number of modes `drm_add_modes_noedid` adds. -/
def sample_noedid_count (hdisplay _vdisplay : Nat) : Nat :=
  if hdisplay ≤ 800 then 2 else 30

/-- One Display showing a 1024 x 768 Surface backed by buffer object 7. -/
def sample_modeset_device : vbox_private :=
  sample_device [sample_crtc 0 (some (sample_fb 2 1024 768 7)) 0 0 1024 768]

/-- Display 0, enabled, showing a 1024 x 768 Surface (pitch 4096, 4 bytes per
pixel) that starts at byte offset `fb_offset` of video memory. -/
def sample_legacy_crtc (fb_offset : Nat) : vbox_crtc :=
  { sample_crtc 0 (some (sample_fb 2 1024 768 7)) 0 0 1024 768 with fb_offset := fb_offset }

/-- One Display with the position hint (`x_hint`, `y_hint`) and a 1280 x 1024
size hint, after the initial mode query. -/
def sample_hint_device (x_hint y_hint : Int) : vbox_private :=
  { sample_device [sample_crtc 0 none x_hint y_hint 1280 1024]
    with initial_mode_queried := true }

/-- The sample mode-set device with buffer object 8 (the old framebuffer's)
pinned once. -/
def sample_swap_device : vbox_private :=
  { sample_modeset_device with pin_count := fun obj => if obj = 8 then 1 else 0 }

/-! # Theorems -/

/-! ## EDID checksum -/

theorem foldl_wrapU32 (l : List Nat) (a : Nat) :
    l.foldl (fun sum b => wrapU32 (sum + b)) a % 2 ^ 32 = (a + l.sum) % 2 ^ 32 := by
  induction l generalizing a with
  | nil => simp
  | cons b t ih =>
    simp only [List.foldl_cons, List.sum_cons]
    rw [ih]
    unfold wrapU32
    omega

theorem sum_set_last (l : List Nat) (c : Nat) (n : Nat) (h : l.length = n + 1) :
    (l.set n c).sum = (l.take n).sum + c := by
  induction l generalizing n with
  | nil => simp at h
  | cons b t ih =>
    cases n with
    | zero =>
      simp at h
      subst h
      simp
    | succ m =>
      simp at h
      simp [List.set, ih m h]
      omega

theorem and_ff (x : Nat) : x &&& 0xFF = x % 256 :=
  Nat.and_pow_two_sub_one_eq_mod x 8

theorem toU8_lt (x : Int) : toU8 x < 256 := by
  unfold toU8
  omega

theorem edid_patched_length (w h : Int) : (edid_patched w h).length = 128 := by
  simp [edid_patched, edid_template]

theorem bytes_set (l : List Nat) (i v : Nat) (hl : ∀ b ∈ l, b < 256) (hv : v < 256) :
    ∀ b ∈ l.set i v, b < 256 := by
  intro b hb
  rcases List.mem_or_eq_of_mem_set hb with h | h
  · exact hl b h
  · exact h ▸ hv

set_option maxRecDepth 100000 in
theorem edid_template_bytes : ∀ b ∈ edid_template, b < 256 := by
  decide

theorem edid_patched_bytes (w h : Int) : ∀ b ∈ edid_patched w h, b < 256 := by
  unfold edid_patched
  simp only []
  repeat (first | exact edid_template_bytes | apply bytes_set _ _ _ _ (toU8_lt _))

/-- C1: for every `width` and `height`, the block produced by `vbox_set_edid`
has 128 entries, each a byte, and the sum of the 128 bytes is congruent to 0
modulo 256. -/
theorem vbox_set_edid_checksum (width height : Int) :
    (vbox_set_edid width height).length = 128 ∧
    (∀ b ∈ vbox_set_edid width height, b < 256) ∧
    (vbox_set_edid width height).sum % 256 = 0 := by
  have hlen := edid_patched_length width height
  refine ⟨by simp [vbox_set_edid, EDID_SIZE, hlen], ?_, ?_⟩
  · unfold vbox_set_edid
    apply bytes_set _ _ _ (edid_patched_bytes width height)
    rw [and_ff]; omega
  · unfold vbox_set_edid
    simp only [EDID_SIZE]
    rw [sum_set_last _ _ 127 hlen, and_ff, and_ff]
    have h := foldl_wrapU32 ((edid_patched width height).take 127) 0
    unfold edid_sum
    simp only [EDID_SIZE, Nat.add_one_sub_one, Nat.reduceSub] at *
    omega

/-! ## Cursor validation -/

/-- The function `vbox_cursor_atomic_check` as one case distinction. -/
theorem vbox_cursor_atomic_check_eq (H : Header) (w h : Nat) :
    vbox_cursor_atomic_check H w h =
      if (1 ≤ w ∧ w ≤ H.VBOX_MAX_CURSOR_WIDTH ∧ 1 ≤ h ∧ h ≤ H.VBOX_MAX_CURSOR_HEIGHT)
      then 0 else -EINVAL := by
  unfold vbox_cursor_atomic_check
  simp only [Bool.or_eq_true, decide_eq_true_eq, beq_iff_eq]
  split_ifs with h1 h2 h2
  · omega
  · rfl
  · rfl
  · omega

theorem vbox_cursor_atomic_check_accepts (H : Header) (w h : Nat)
    (hv : vbox_cursor_atomic_check H w h = 0) :
    1 ≤ w ∧ w ≤ H.VBOX_MAX_CURSOR_WIDTH ∧ 1 ≤ h ∧ h ≤ H.VBOX_MAX_CURSOR_HEIGHT := by
  rw [vbox_cursor_atomic_check_eq] at hv
  split_ifs at hv with h1
  · exact h1
  · exact absurd hv (by decide)

/-- C2: `vbox_cursor_atomic_check` returns 0 exactly when
`1 <= width <= VBOX_MAX_CURSOR_WIDTH` and `1 <= height <= VBOX_MAX_CURSOR_HEIGHT`
and returns `-EINVAL` otherwise; so a zero width, a zero height and any
dimension above its maximum are rejected, and, the maxima being at least 1,
(1,1) and (MAX,MAX) are accepted. -/
theorem vbox_cursor_atomic_check_spec (H : Header) (width height : Nat) :
    (vbox_cursor_atomic_check H width height = 0 ↔
      (1 ≤ width ∧ width ≤ H.VBOX_MAX_CURSOR_WIDTH ∧
       1 ≤ height ∧ height ≤ H.VBOX_MAX_CURSOR_HEIGHT)) ∧
    (vbox_cursor_atomic_check H width height ≠ 0 →
      vbox_cursor_atomic_check H width height = -EINVAL) ∧
    vbox_cursor_atomic_check H 0 height = -EINVAL ∧
    vbox_cursor_atomic_check H width 0 = -EINVAL ∧
    (H.VBOX_MAX_CURSOR_WIDTH < width →
      vbox_cursor_atomic_check H width height = -EINVAL) ∧
    (H.VBOX_MAX_CURSOR_HEIGHT < height →
      vbox_cursor_atomic_check H width height = -EINVAL) ∧
    (1 ≤ H.VBOX_MAX_CURSOR_WIDTH → 1 ≤ H.VBOX_MAX_CURSOR_HEIGHT →
      vbox_cursor_atomic_check H 1 1 = 0 ∧
      vbox_cursor_atomic_check H H.VBOX_MAX_CURSOR_WIDTH H.VBOX_MAX_CURSOR_HEIGHT = 0) := by
  have key := vbox_cursor_atomic_check_eq H
  have hne : (-EINVAL : Int) ≠ 0 := by decide
  refine ⟨?_, ?_, ?_, ?_, ?_, ?_, ?_⟩
  · rw [key]; split_ifs with h1
    · simp [h1]
    · simp [h1, hne]
  · rw [key]; split_ifs with h1
    · simp
    · simp
  · rw [key]; simp
  · rw [key]; simp
  · intro h; rw [key, if_neg (by omega)]
  · intro h; rw [key, if_neg (by omega)]
  · intro hw hh
    constructor
    · rw [key, if_pos (by omega)]
    · rw [key, if_pos (by omega)]

/-- C2 at the header values of the driver (64 x 64): (1,1) and (64,64) are
accepted. -/
theorem vbox_cursor_atomic_check_spec_witness :
    vbox_cursor_atomic_check vboxHeader 1 1 = 0 ∧
    vbox_cursor_atomic_check vboxHeader 64 64 = 0 :=
  (vbox_cursor_atomic_check_spec vboxHeader 1 1).2.2.2.2.2.2 (by decide) (by decide)

/-! ## Cursor mask derivation -/

/-- C3 (failing input): a 1 x 1 image whose only pixel is the ARGB word
`0xF0000001` (alpha byte `0xF0`, which is not greater than `0xF0`), copied into
an all-zero destination with `mask_size` 4: the mask bit of pixel (0,0), bit
`0x80` of mask byte 0, is set. -/
theorem copy_cursor_image_alpha_F0 :
    ¬ (listMem [0x01, 0x00, 0x00, 0xF0] 3 > 0xF0) ∧
    cursor_mask_size 1 1 = 4 ∧
    copy_cursor_image (listMem [0x01, 0x00, 0x00, 0xF0]) (fun _ => 0) 1 1 4 0 &&& 0x80
      = 0x80 := by
  decide


/-! ## Cursor payload layout -/

theorem and_fffffffc (x : Nat) (hx : x < 2 ^ 32) : x &&& 0xFFFFFFFC = x / 4 * 4 := by
  apply Nat.eq_of_testBit_eq
  intro i
  have h1 : (0xFFFFFFFC : Nat) = 2 ^ 2 * (2 ^ 30 - 1) := by norm_num
  have h2 : x / 4 * 4 = 2 ^ 2 * (x >>> 2) := by
    rw [Nat.shiftRight_eq_div_pow]; norm_num; ring
  rw [Nat.testBit_and, h1, h2, Nat.testBit_mul_pow_two, Nat.testBit_mul_pow_two,
    Nat.testBit_two_pow_sub_one, Nat.testBit_shiftRight]
  by_cases hi : 2 ≤ i
  · have e : 2 + (i - 2) = i := by omega
    rw [e]
    by_cases hi2 : i - 2 < 30
    · simp [hi, hi2]
    · simp [hi, hi2]
      apply Nat.testBit_lt_two_pow
      calc x < 2 ^ 32 := hx
        _ ≤ 2 ^ i := Nat.pow_le_pow_right (by norm_num) (by omega)
  · simp [hi]

/-- Without overflow, `cursor_mask_size` rounds `(width + 7) / 8 * height` up
to a multiple of 4. -/
theorem cursor_mask_size_eq (width height : Nat) (hw : 1 ≤ width)
    (hwh : width * height * 4 < 2 ^ 32) (hh : 1 ≤ height) :
    cursor_mask_size width height = ((width + 7) / 8 * height + 3) / 4 * 4 := by
  have h1 : (width + 7) / 8 * height ≤ width * height :=
    Nat.mul_le_mul_right _ (by omega)
  have h2 : width * 1 ≤ width * height := Nat.mul_le_mul_left _ hh
  have e1 : wrapU32 (width + 7) = width + 7 := by
    unfold wrapU32; apply Nat.mod_eq_of_lt; omega
  have e2 : wrapU32 ((width + 7) / 8 * height) = (width + 7) / 8 * height := by
    unfold wrapU32; apply Nat.mod_eq_of_lt; omega
  have e3 : wrapU32 ((width + 7) / 8 * height + 3) = (width + 7) / 8 * height + 3 := by
    unfold wrapU32; apply Nat.mod_eq_of_lt; omega
  unfold cursor_mask_size
  rw [e1, e2, e3, and_fffffffc _ (by omega)]

theorem cursor_write_index_lt (width height i j : Nat) (hi : i < height) (hj : j < width) :
    i * ((width + 7) / 8) + j / 8 < (width + 7) / 8 * height := by
  have h1 : (i + 1) * ((width + 7) / 8) ≤ height * ((width + 7) / 8) :=
    Nat.mul_le_mul_right _ hi
  rw [Nat.add_mul] at h1
  rw [Nat.mul_comm ((width + 7) / 8) height]
  omega

theorem copy_cursor_pixel_other (src : Mem) (width line_size i : Nat) (dst : Mem) (j k : Nat)
    (hk : wrapSize (wrapSize (i * line_size) + j / 8) ≠ k) :
    copy_cursor_pixel src width line_size i dst j k = dst k := by
  unfold copy_cursor_pixel or_byte
  split_ifs
  · exact Function.update_noteq (Ne.symm hk) _ _
  · rfl

theorem foldl_pixels_other (src : Mem) (width line_size i k : Nat) (js : List Nat)
    (hk : ∀ j ∈ js, wrapSize (wrapSize (i * line_size) + j / 8) ≠ k) (dst : Mem) :
    js.foldl (copy_cursor_pixel src width line_size i) dst k = dst k := by
  induction js generalizing dst with
  | nil => rfl
  | cons j t ih =>
    rw [List.foldl_cons, ih (fun j2 h2 => hk j2 (List.mem_cons_of_mem _ h2))]
    exact copy_cursor_pixel_other _ _ _ _ _ _ _ (hk j (List.mem_cons_self _ _))

theorem foldl_rows_other (src : Mem) (width line_size k : Nat) (is js : List Nat)
    (hk : ∀ i ∈ is, ∀ j ∈ js, wrapSize (wrapSize (i * line_size) + j / 8) ≠ k) (dst : Mem) :
    is.foldl (fun dst i => js.foldl (copy_cursor_pixel src width line_size i) dst) dst k
      = dst k := by
  induction is generalizing dst with
  | nil => rfl
  | cons i t ih =>
    rw [List.foldl_cons, ih (fun i2 h2 => hk i2 (List.mem_cons_of_mem _ h2))]
    exact foldl_pixels_other _ _ _ _ _ _ (hk i (List.mem_cons_self _ _)) _

/-- Outside the bytes the mask loop writes, `copy_cursor_image` leaves what
`memcpy` put there. -/
theorem copy_cursor_image_other (src dst : Mem) (width height mask_size k : Nat)
    (hk : ∀ i < height, ∀ j < width,
      wrapSize (wrapSize (i * (wrapU32 (width + 7) / 8)) + j / 8) ≠ k) :
    copy_cursor_image src dst width height mask_size k
      = memcpy dst mask_size src (wrapU32 (wrapU32 (width * height) * 4)) k := by
  unfold copy_cursor_image
  exact foldl_rows_other _ _ _ _ _ _
    (fun i hi j hj => hk i (List.mem_range.mp hi) j (List.mem_range.mp hj)) _

/-- C4: for a validated cursor size (with maxima whose product times 4 fits
32 bits, as 64 x 64 does), `mask_size` is the least multiple of 4 that is at
least `ceil(width/8) * height`; every mask write of `copy_cursor_image` is at a
byte index below `mask_size`; bytes `mask_size ..< mask_size + width*height*4`
of the buffer equal the source bytes; and `vbox_cursor_atomic_update` sends a
pointer-shape command whose payload has that content and the size
`mask_size + width*height*4`. -/
theorem cursor_payload_layout (H : Header) (vbox : vbox_private) (idx : Nat)
    (fb : drm_framebuffer) (old_fb : Option drm_framebuffer) (width height : Nat) (src : Mem)
    (hH : H.VBOX_MAX_CURSOR_WIDTH * H.VBOX_MAX_CURSOR_HEIGHT * 4 < 2 ^ 32)
    (hv : vbox_cursor_atomic_check H width height = 0)
    (hidx : idx < vbox.crtcs.length)
    (hfb : some fb.addr ≠ old_fb.map (fun f => f.addr)) :
    (cursor_mask_size width height % 4 = 0 ∧
      (width + 7) / 8 * height ≤ cursor_mask_size width height ∧
      ∀ m, m % 4 = 0 → (width + 7) / 8 * height ≤ m → cursor_mask_size width height ≤ m) ∧
    (∀ i j, i < height → j < width →
      wrapSize (wrapSize (i * (wrapU32 (width + 7) / 8)) + j / 8)
        < cursor_mask_size width height) ∧
    (∀ k, k < width * height * 4 →
      copy_cursor_image src vbox.cursor_data width height (cursor_mask_size width height)
        (cursor_mask_size width height + k) = src k) ∧
    cursor_data_size width height = cursor_mask_size width height + width * height * 4 ∧
    (∃ vbox2,
      vbox_cursor_atomic_update H vbox idx fb old_fb width height (some src) = some vbox2 ∧
      vbox2.trace = vbox.trace ++
        [Event.update_pointer_shape
          (H.VBOX_MOUSE_POINTER_VISIBLE ||| H.VBOX_MOUSE_POINTER_SHAPE |||
            H.VBOX_MOUSE_POINTER_ALPHA)
          (min_t_u32 (max fb.hot_x 0) width) (min_t_u32 (max fb.hot_y 0) height)
          width height
          (some ((List.range (cursor_mask_size width height + width * height * 4)).map
            (copy_cursor_image src vbox.cursor_data width height
              (cursor_mask_size width height))))
          (cursor_mask_size width height + width * height * 4)]) ∧
    (∀ k, k < width * height * 4 →
      ((List.range (cursor_mask_size width height + width * height * 4)).map
        (copy_cursor_image src vbox.cursor_data width height
          (cursor_mask_size width height)))[cursor_mask_size width height + k]?
        = some (src k)) := by
  obtain ⟨hw1, hw2, hh1, hh2⟩ := vbox_cursor_atomic_check_accepts H width height hv
  have hwh : width * height * 4 < 2 ^ 32 := by
    have := Nat.mul_le_mul hw2 hh2
    omega
  have hmask := cursor_mask_size_eq width height hw1 hwh hh1
  have hs : (width + 7) / 8 * height ≤ width * height := Nat.mul_le_mul_right _ (by omega)
  have e1 : wrapU32 (width + 7) = width + 7 := by
    have h2 : width * 1 ≤ width * height := Nat.mul_le_mul_left _ hh1
    unfold wrapU32; apply Nat.mod_eq_of_lt; omega
  have e4 : wrapU32 (wrapU32 (width * height) * 4) = width * height * 4 := by
    have e5 : width * height % 2 ^ 32 = width * height := Nat.mod_eq_of_lt (by omega)
    unfold wrapU32
    rw [e5, Nat.mod_eq_of_lt hwh]
  have A : cursor_mask_size width height % 4 = 0 ∧
      (width + 7) / 8 * height ≤ cursor_mask_size width height ∧
      ∀ m, m % 4 = 0 → (width + 7) / 8 * height ≤ m → cursor_mask_size width height ≤ m := by
    rw [hmask]
    refine ⟨by omega, by omega, ?_⟩
    intro m hm1 hm2
    omega
  have B : ∀ i j, i < height → j < width →
      wrapSize (wrapSize (i * (wrapU32 (width + 7) / 8)) + j / 8)
        < cursor_mask_size width height := by
    intro i j hi hj
    have h := cursor_write_index_lt width height i j hi hj
    rw [e1]
    have e6 : i * ((width + 7) / 8) % 2 ^ 64 = i * ((width + 7) / 8) :=
      Nat.mod_eq_of_lt (by omega)
    unfold wrapSize
    rw [e6, Nat.mod_eq_of_lt (by omega)]
    omega
  have C : ∀ k, k < width * height * 4 →
      copy_cursor_image src vbox.cursor_data width height (cursor_mask_size width height)
        (cursor_mask_size width height + k) = src k := by
    intro k hk
    rw [copy_cursor_image_other, e4]
    · unfold memcpy
      rw [if_pos (by omega)]
      congr 1
      omega
    · intro i hi j hj
      have := B i j hi hj
      omega
  have D : cursor_data_size width height
      = cursor_mask_size width height + width * height * 4 := by
    unfold cursor_data_size wrapSize
    rw [e4, Nat.mod_eq_of_lt (by omega)]
    omega
  refine ⟨A, B, C, D, ?_, ?_⟩
  · unfold vbox_cursor_atomic_update
    rw [List.getElem?_eq_getElem hidx]
    simp only [Option.bind_eq_bind, Option.some_bind, beq_iff_eq, hfb, if_false,
      Option.pure_def]
    refine ⟨_, rfl, ?_⟩
    simp only [emit, D]
  · intro k hk
    rw [List.getElem?_map, List.getElem?_range (by omega)]
    simp only [Option.map_some']
    rw [C k hk]

/-- C4 at the header values of the driver, for a 9 x 3 cursor on a device with
one Display: the mask takes 8 bytes and the payload 8 + 9*3*4 bytes. -/
theorem cursor_payload_layout_witness :
    vbox_cursor_atomic_check vboxHeader 9 3 = 0 ∧
    cursor_mask_size 9 3 = 8 ∧
    cursor_data_size 9 3 = cursor_mask_size 9 3 + 9 * 3 * 4 :=
  ⟨by decide, by decide,
   (cursor_payload_layout vboxHeader (sample_device [sample_crtc 0 none 0 0 0 0]) 0
      (sample_fb 5 9 3 20) none 9 3 (fun _ => 0xFF)
      (by decide) (by decide) (by decide) (by decide)).2.2.2.1⟩

/-! ## Coordinate mapper -/

theorem scan_single_framebuffer_some (afb : Nat) (crtcs : List vbox_crtc)
    (fb1 : drm_framebuffer) (b : Bool) :
    scan_single_framebuffer afb crtcs (some fb1) b
      = (b && (active_surfaces crtcs).all (fun a => a == fb1.addr)) := by
  induction crtcs generalizing b with
  | nil => simp [scan_single_framebuffer, active_surfaces]
  | cons c rest ih =>
    unfold scan_single_framebuffer
    cases hc : c.primary_fb with
    | none =>
      simp only [ih, active_surfaces, List.filterMap_cons, hc, Option.map_none']
    | some fb =>
      simp only [ih, active_surfaces, List.filterMap_cons, hc, Option.map_some', List.all_cons]
      by_cases h : fb1.addr = fb.addr
      · simp [h]
      · have h2 : ¬ fb.addr = fb1.addr := fun e => h e.symm
        simp [h, h2]

theorem scan_single_framebuffer_none (afb : Nat) (crtcs : List vbox_crtc) :
    scan_single_framebuffer afb crtcs none true
      = match active_surfaces crtcs with
        | [] => true
        | a :: rest => a == afb || rest.all (fun b => b == a) := by
  induction crtcs with
  | nil => simp [scan_single_framebuffer, active_surfaces]
  | cons c rest ih =>
    unfold scan_single_framebuffer
    cases hc : c.primary_fb with
    | none =>
      simp only [Option.map_none', active_surfaces, List.filterMap_cons, hc]
      simpa [active_surfaces] using ih
    | some fb =>
      simp only [Option.map_some', active_surfaces, List.filterMap_cons, hc,
        scan_single_framebuffer_some]
      by_cases h : fb.addr = afb
      · simp [h]
      · simp [h]

theorem share_one_surface_cons (a : Nat) (rest : List Nat) :
    (∀ x ∈ a :: rest, ∀ y ∈ a :: rest, x = y) ↔ rest.all (fun b => b == a) = true := by
  simp only [List.all_eq_true, beq_iff_eq, List.mem_cons]
  constructor
  · intro h b hb
    exact h b (Or.inr hb) a (Or.inl rfl)
  · intro h x hx y hy
    have hx2 : x = a := by rcases hx with e | e; exact e; exact h x e
    have hy2 : y = a := by rcases hy with e | e; exact e; exact h y e
    rw [hx2, hy2]

/-- What the first loop of `vbox_set_up_input_mapping` computes. -/
theorem scan_single_framebuffer_iff (afb : Nat) (crtcs : List vbox_crtc) :
    scan_single_framebuffer afb crtcs none true = true ↔
      ((active_surfaces crtcs).head? = some afb ∨ share_one_surface crtcs) := by
  rw [scan_single_framebuffer_none]
  unfold share_one_surface
  cases h : active_surfaces crtcs with
  | nil => simp
  | cons a rest =>
    rw [share_one_surface_cons]
    simp

theorem vbox_set_up_input_mapping_single (vbox : vbox_private) :
    (vbox_set_up_input_mapping vbox).2.single_framebuffer
      = scan_single_framebuffer vbox.fbdev_afb vbox.crtcs none true := by
  unfold vbox_set_up_input_mapping
  cases h : scan_single_framebuffer vbox.fbdev_afb vbox.crtcs none true with
  | true =>
    simp only [if_true]
    cases first_framebuffer vbox.crtcs <;> rfl
  | false => simp

/-- C5 (counterexample): Display 0 shows the fbdev console framebuffer
(address 1) and Display 1 shows another Surface (address 2); the Displays do
not share one Surface, yet `single_framebuffer` is true afterwards. -/
theorem single_framebuffer_fbdev_counterexample :
    ¬ ((vbox_set_up_input_mapping (sample_device
          [sample_crtc 0 (some (sample_fb 1 800 600 10)) 0 0 800 600,
           sample_crtc 1 (some (sample_fb 2 640 480 11)) 800 0 640 480])).2.single_framebuffer
        = true ↔
       share_one_surface
          [sample_crtc 0 (some (sample_fb 1 800 600 10)) 0 0 800 600,
           sample_crtc 1 (some (sample_fb 2 640 480 11)) 800 0 640 480]) := by
  decide

/-- C5 (amended): after `vbox_set_up_input_mapping`, `single_framebuffer` is
true if and only if the first Display (in list order) that has an active
Surface shows the fbdev console framebuffer, or every Display that has an
active Surface shows one and the same Surface. -/
theorem single_framebuffer_iff (vbox : vbox_private) :
    (vbox_set_up_input_mapping vbox).2.single_framebuffer = true ↔
      ((active_surfaces vbox.crtcs).head? = some vbox.fbdev_afb ∨
        share_one_surface vbox.crtcs) := by
  rw [vbox_set_up_input_mapping_single, scan_single_framebuffer_iff]

theorem toU16_of_range (x : Int) (h0 : 0 ≤ x) (h1 : x ≤ 65535) : ((toU16 x : Nat) : Int) = x := by
  unfold toU16
  omega

/-- The span loop, for sums within `u16` range: the result bounds the start
value and every sum, and is the start value or one of the sums. -/
theorem span_of_screens_max (crtcs : List vbox_crtc) (w0 h0 : Nat)
    (hw0 : w0 ≤ 65535) (hh0 : h0 ≤ 65535)
    (hr : ∀ c ∈ crtcs,
      0 ≤ c.x_hint + c.mode_hint_width ∧ c.x_hint + c.mode_hint_width ≤ 65535 ∧
      0 ≤ c.y_hint + c.mode_hint_height ∧ c.y_hint + c.mode_hint_height ≤ 65535) :
    (w0 ≤ (span_of_screens crtcs (w0, h0)).1 ∧
      (∀ c ∈ crtcs, c.x_hint + c.mode_hint_width ≤ ((span_of_screens crtcs (w0, h0)).1 : Int)) ∧
      ((span_of_screens crtcs (w0, h0)).1 = w0 ∨
        ∃ c ∈ crtcs, ((span_of_screens crtcs (w0, h0)).1 : Int) = c.x_hint + c.mode_hint_width)) ∧
    (h0 ≤ (span_of_screens crtcs (w0, h0)).2 ∧
      (∀ c ∈ crtcs, c.y_hint + c.mode_hint_height ≤ ((span_of_screens crtcs (w0, h0)).2 : Int)) ∧
      ((span_of_screens crtcs (w0, h0)).2 = h0 ∨
        ∃ c ∈ crtcs, ((span_of_screens crtcs (w0, h0)).2 : Int) = c.y_hint + c.mode_hint_height)) := by
  induction crtcs generalizing w0 h0 with
  | nil => simp [span_of_screens]
  | cons c rest ih =>
    obtain ⟨hx0, hx1, hy0, hy1⟩ := hr c (List.mem_cons_self _ _)
    have hw : ((toU16 (c.x_hint + c.mode_hint_width) : Nat) : Int)
        = c.x_hint + c.mode_hint_width := toU16_of_range _ hx0 hx1
    have hh : ((toU16 (c.y_hint + c.mode_hint_height) : Nat) : Int)
        = c.y_hint + c.mode_hint_height := toU16_of_range _ hy0 hy1
    have hw0c : toU16 (w0 : Int) = w0 := by unfold toU16; omega
    have hh0c : toU16 (h0 : Int) = h0 := by unfold toU16; omega
    have step : span_of_screens (c :: rest) (w0, h0)
        = span_of_screens rest
            (max w0 (toU16 (c.x_hint + c.mode_hint_width)),
             max h0 (toU16 (c.y_hint + c.mode_hint_height))) := by
      simp only [span_of_screens, max_t_u16, hw0c, hh0c]
    rw [step]
    have hb1 : max w0 (toU16 (c.x_hint + c.mode_hint_width)) ≤ 65535 := by
      apply Nat.max_le.mpr; constructor <;> (clear ih; omega)
    have hb2 : max h0 (toU16 (c.y_hint + c.mode_hint_height)) ≤ 65535 := by
      apply Nat.max_le.mpr; constructor <;> (clear ih; omega)
    obtain ⟨⟨a1, a2, a3⟩, ⟨b1, b2, b3⟩⟩ :=
      ih _ _ hb1 hb2 (fun c2 h2 => hr c2 (List.mem_cons_of_mem _ h2))
    have m1 := Nat.le_max_left w0 (toU16 (c.x_hint + c.mode_hint_width))
    have m2 := Nat.le_max_right w0 (toU16 (c.x_hint + c.mode_hint_width))
    have m3 := Nat.le_max_left h0 (toU16 (c.y_hint + c.mode_hint_height))
    have m4 := Nat.le_max_right h0 (toU16 (c.y_hint + c.mode_hint_height))
    refine ⟨⟨?_, ?_, ?_⟩, ⟨?_, ?_, ?_⟩⟩
    · exact Nat.le_trans m1 a1
    · intro c2 h2
      rcases List.mem_cons.mp h2 with e | e
      · subst e
        have := Nat.le_trans m2 a1
        clear a3 b3 ih
        omega
      · exact a2 c2 e
    · rcases a3 with e | ⟨c2, h2, e⟩
      · rcases Nat.le_total w0 (toU16 (c.x_hint + c.mode_hint_width)) with l | l
        · right
          refine ⟨c, List.mem_cons_self _ _, ?_⟩
          rw [e, Nat.max_eq_right l, hw]
        · left
          rw [e, Nat.max_eq_left l]
      · exact Or.inr ⟨c2, List.mem_cons_of_mem _ h2, e⟩
    · exact Nat.le_trans m3 b1
    · intro c2 h2
      rcases List.mem_cons.mp h2 with e | e
      · subst e
        have := Nat.le_trans m4 b1
        clear a3 b3 ih
        omega
      · exact b2 c2 e
    · rcases b3 with e | ⟨c2, h2, e⟩
      · rcases Nat.le_total h0 (toU16 (c.y_hint + c.mode_hint_height)) with l | l
        · right
          refine ⟨c, List.mem_cons_self _ _, ?_⟩
          rw [e, Nat.max_eq_right l, hh]
        · left
          rw [e, Nat.max_eq_left l]
      · exact Or.inr ⟨c2, List.mem_cons_of_mem _ h2, e⟩

theorem vbox_set_up_input_mapping_span (vbox : vbox_private)
    (h : scan_single_framebuffer vbox.fbdev_afb vbox.crtcs none true = false) :
    (vbox_set_up_input_mapping vbox).2.input_mapping_width
        = (span_of_screens vbox.crtcs (0, 0)).1 ∧
    (vbox_set_up_input_mapping vbox).2.input_mapping_height
        = (span_of_screens vbox.crtcs (0, 0)).2 := by
  unfold vbox_set_up_input_mapping
  simp [h]

/-- C6 (counterexample): the three Displays of the scenario, each with its own
Surface, the first one showing the fbdev console framebuffer (address 1): the
Displays do not share one Surface, yet `single_framebuffer` is set to true and
the input mapping is the size of the console framebuffer, not 1440 x 1368. -/
theorem input_mapping_fbdev_counterexample :
    ¬ share_one_surface
        [sample_crtc 0 (some (sample_fb 1 800 600 10)) 0 0 800 600,
         sample_crtc 1 (some (sample_fb 2 640 480 11)) 800 0 640 480,
         sample_crtc 2 (some (sample_fb 3 1024 768 12)) 0 600 1024 768] ∧
    (vbox_set_up_input_mapping (sample_device
        [sample_crtc 0 (some (sample_fb 1 800 600 10)) 0 0 800 600,
         sample_crtc 1 (some (sample_fb 2 640 480 11)) 800 0 640 480,
         sample_crtc 2 (some (sample_fb 3 1024 768 12)) 0 600 1024 768])).2.single_framebuffer
      = true ∧
    (vbox_set_up_input_mapping (sample_device
        [sample_crtc 0 (some (sample_fb 1 800 600 10)) 0 0 800 600,
         sample_crtc 1 (some (sample_fb 2 640 480 11)) 800 0 640 480,
         sample_crtc 2 (some (sample_fb 3 1024 768 12)) 0 600 1024 768])).2.input_mapping_width
      = 800 ∧
    (vbox_set_up_input_mapping (sample_device
        [sample_crtc 0 (some (sample_fb 1 800 600 10)) 0 0 800 600,
         sample_crtc 1 (some (sample_fb 2 640 480 11)) 800 0 640 480,
         sample_crtc 2 (some (sample_fb 3 1024 768 12)) 0 600 1024 768])).2.input_mapping_height
      = 600 := by
  decide

/-- C6 (amended): when the Displays do not all share one Surface and the first
Display that has a Surface does not show the fbdev console framebuffer,
`vbox_set_up_input_mapping` sets `single_framebuffer` to false and, every sum
`x_hint + hint_width` and `y_hint + hint_height` lying in 0..65535, sets
`input_mapping_width` to the maximum over all Displays of `x_hint + hint_width`
and `input_mapping_height` to the maximum of `y_hint + hint_height` (each is an
upper bound of the sums and equal to one of them). -/
theorem input_mapping_span (vbox : vbox_private)
    (hshare : ¬ share_one_surface vbox.crtcs)
    (hfbdev : (active_surfaces vbox.crtcs).head? ≠ some vbox.fbdev_afb)
    (hr : ∀ c ∈ vbox.crtcs,
      0 ≤ c.x_hint + c.mode_hint_width ∧ c.x_hint + c.mode_hint_width ≤ 65535 ∧
      0 ≤ c.y_hint + c.mode_hint_height ∧ c.y_hint + c.mode_hint_height ≤ 65535) :
    (vbox_set_up_input_mapping vbox).2.single_framebuffer = false ∧
    (∀ c ∈ vbox.crtcs, c.x_hint + c.mode_hint_width
        ≤ ((vbox_set_up_input_mapping vbox).2.input_mapping_width : Int)) ∧
    (∃ c ∈ vbox.crtcs, ((vbox_set_up_input_mapping vbox).2.input_mapping_width : Int)
        = c.x_hint + c.mode_hint_width) ∧
    (∀ c ∈ vbox.crtcs, c.y_hint + c.mode_hint_height
        ≤ ((vbox_set_up_input_mapping vbox).2.input_mapping_height : Int)) ∧
    (∃ c ∈ vbox.crtcs, ((vbox_set_up_input_mapping vbox).2.input_mapping_height : Int)
        = c.y_hint + c.mode_hint_height) := by
  have hscan : scan_single_framebuffer vbox.fbdev_afb vbox.crtcs none true = false := by
    cases h : scan_single_framebuffer vbox.fbdev_afb vbox.crtcs none true with
    | false => rfl
    | true =>
      rcases (scan_single_framebuffer_iff _ _).mp h with e | e
      · exact absurd e hfbdev
      · exact absurd e hshare
  obtain ⟨ew, eh⟩ := vbox_set_up_input_mapping_span vbox hscan
  have hne : ∃ c, c ∈ vbox.crtcs := by
    cases hc : vbox.crtcs with
    | nil =>
      exfalso
      apply hshare
      unfold share_one_surface active_surfaces
      rw [hc]
      simp
    | cons c rest => exact ⟨c, List.mem_cons_self _ _⟩
  obtain ⟨c0, hc0⟩ := hne
  obtain ⟨⟨_, a2, a3⟩, ⟨_, b2, b3⟩⟩ :=
    span_of_screens_max vbox.crtcs 0 0 (by omega) (by omega) hr
  rw [vbox_set_up_input_mapping_single, ew, eh]
  refine ⟨hscan, a2, ?_, b2, ?_⟩
  · rcases a3 with e | e
    · refine ⟨c0, hc0, ?_⟩
      have h1 := a2 c0 hc0
      have h2 := (hr c0 hc0).1
      clear b3 hr a2 b2
      omega
    · exact e
  · rcases b3 with e | e
    · refine ⟨c0, hc0, ?_⟩
      have h1 := b2 c0 hc0
      have h2 := (hr c0 hc0).2.2.1
      clear a3 hr a2 b2
      omega
    · exact e

/-- C6 (scenario): hints (0,0,800,600), (800,0,640,480), (0,600,1024,768) on
three Displays with three different Surfaces, none of them the console
framebuffer: `single_framebuffer` is false and the input mapping is
1440 x 1368. -/
theorem input_mapping_span_witness :
    (vbox_set_up_input_mapping (sample_device
        [sample_crtc 0 (some (sample_fb 2 800 600 10)) 0 0 800 600,
         sample_crtc 1 (some (sample_fb 3 640 480 11)) 800 0 640 480,
         sample_crtc 2 (some (sample_fb 4 1024 768 12)) 0 600 1024 768])).2.single_framebuffer
      = false ∧
    (vbox_set_up_input_mapping (sample_device
        [sample_crtc 0 (some (sample_fb 2 800 600 10)) 0 0 800 600,
         sample_crtc 1 (some (sample_fb 3 640 480 11)) 800 0 640 480,
         sample_crtc 2 (some (sample_fb 4 1024 768 12)) 0 600 1024 768])).2.input_mapping_width
      = 1440 ∧
    (vbox_set_up_input_mapping (sample_device
        [sample_crtc 0 (some (sample_fb 2 800 600 10)) 0 0 800 600,
         sample_crtc 1 (some (sample_fb 3 640 480 11)) 800 0 640 480,
         sample_crtc 2 (some (sample_fb 4 1024 768 12)) 0 600 1024 768])).2.input_mapping_height
      = 1368 := by
  have h := input_mapping_span (sample_device
        [sample_crtc 0 (some (sample_fb 2 800 600 10)) 0 0 800 600,
         sample_crtc 1 (some (sample_fb 3 640 480 11)) 800 0 640 480,
         sample_crtc 2 (some (sample_fb 4 1024 768 12)) 0 600 1024 768])
      (by decide) (by decide) (by decide)
  exact ⟨h.1, by decide, by decide⟩

/-- C7: `vbox_set_up_input_mapping` returns true if and only if the value of
`single_framebuffer` after the call differs from its value before the call. -/
theorem vbox_set_up_input_mapping_returns_changed (vbox : vbox_private) :
    (vbox_set_up_input_mapping vbox).1 = true ↔
      (vbox_set_up_input_mapping vbox).2.single_framebuffer ≠ vbox.single_framebuffer := by
  unfold vbox_set_up_input_mapping
  cases h : scan_single_framebuffer vbox.fbdev_afb vbox.crtcs none true with
  | true =>
    simp only [if_true]
    cases first_framebuffer vbox.crtcs <;> cases vbox.single_framebuffer <;> simp
  | false =>
    cases vbox.single_framebuffer <;> simp

/-! ## Cursor disable -/

theorem cursor_enabled_scan (crtcs : List vbox_crtc) (b : Bool) :
    crtcs.foldl (fun cursor_enabled crtci =>
      if crtci.cursor_enabled then true else cursor_enabled) b
      = (b || crtcs.any (fun c => c.cursor_enabled)) := by
  induction crtcs generalizing b with
  | nil => simp
  | cons c rest ih =>
    rw [List.foldl_cons, ih]
    cases h : c.cursor_enabled <;> cases b <;> simp [h]

/-- C8: `vbox_cursor_atomic_disable` on a Display of the device returns; it
clears the cursor-enabled flag of that Display and changes nothing else in the
Display list; and it issues the pointer-shape command with flags 0, hot-spot
(0,0), size 0 x 0 and no payload when no Display has its cursor enabled
afterwards, and no command at all when some Display still has. -/
theorem vbox_cursor_atomic_disable_spec (vbox : vbox_private) (idx : Nat)
    (hidx : idx < vbox.crtcs.length) :
    ∃ vbox2, vbox_cursor_atomic_disable vbox idx = some vbox2 ∧
      vbox2.crtcs = vbox.crtcs.set idx { vbox.crtcs[idx] with cursor_enabled := false } ∧
      (∀ c, vbox2.crtcs[idx]? = some c → c.cursor_enabled = false) ∧
      (∀ i, i ≠ idx → vbox2.crtcs[i]? = vbox.crtcs[i]?) ∧
      ((∀ c ∈ vbox2.crtcs, c.cursor_enabled = false) →
        vbox2.trace = vbox.trace ++ [Event.update_pointer_shape 0 0 0 0 0 none 0]) ∧
      ((∃ c ∈ vbox2.crtcs, c.cursor_enabled = true) → vbox2.trace = vbox.trace) := by
  unfold vbox_cursor_atomic_disable
  rw [List.getElem?_eq_getElem hidx]
  simp only [Option.bind_eq_bind, Option.some_bind, Option.pure_def, cursor_enabled_scan,
    Bool.false_or]
  refine ⟨_, rfl, ?_, ?_, ?_, ?_, ?_⟩
  · split_ifs <;> rfl
  · intro c hc
    have hc2 : (vbox.crtcs.set idx { vbox.crtcs[idx] with cursor_enabled := false })[idx]?
        = some c := by
      split_ifs at hc <;> exact hc
    rw [List.getElem?_set_self hidx] at hc2
    cases hc2
    rfl
  · intro i hi
    have : ∀ v : vbox_private, v.crtcs
        = vbox.crtcs.set idx { vbox.crtcs[idx] with cursor_enabled := false } →
        v.crtcs[i]? = vbox.crtcs[i]? := by
      intro v hv
      rw [hv, List.getElem?_set_ne (Ne.symm hi)]
    apply this
    split_ifs <;> rfl
  · intro hall
    have hany : (vbox.crtcs.set idx { vbox.crtcs[idx] with cursor_enabled := false }).any
        (fun c => c.cursor_enabled) = false := by
      rw [List.any_eq_false]
      intro c hc
      have : c.cursor_enabled = false := by
        apply hall
        split_ifs <;> exact hc
      simp [this]
    simp [hany, emit]
  · intro hex
    have hany : (vbox.crtcs.set idx { vbox.crtcs[idx] with cursor_enabled := false }).any
        (fun c => c.cursor_enabled) = true := by
      rw [List.any_eq_true]
      obtain ⟨c, hc, he⟩ := hex
      refine ⟨c, ?_, he⟩
      split_ifs at hc <;> exact hc
    simp [hany]

/-- C8 on two Displays of which only the first has its cursor enabled:
disabling the first sends the zero pointer shape. -/
theorem vbox_cursor_atomic_disable_spec_witness :
    0 < (sample_cursor_device false).crtcs.length ∧
    ∃ vbox2, vbox_cursor_atomic_disable (sample_cursor_device false) 0 = some vbox2 ∧
      vbox2.crtcs = (sample_cursor_device false).crtcs.set 0
        { (sample_cursor_device false).crtcs[0] with cursor_enabled := false } ∧
      (∀ c, vbox2.crtcs[0]? = some c → c.cursor_enabled = false) ∧
      (∀ i, i ≠ 0 → vbox2.crtcs[i]? = (sample_cursor_device false).crtcs[i]?) ∧
      ((∀ c ∈ vbox2.crtcs, c.cursor_enabled = false) →
        vbox2.trace = (sample_cursor_device false).trace ++
          [Event.update_pointer_shape 0 0 0 0 0 none 0]) ∧
      ((∃ c ∈ vbox2.crtcs, c.cursor_enabled = true) →
        vbox2.trace = (sample_cursor_device false).trace) :=
  ⟨by decide, vbox_cursor_atomic_disable_spec (sample_cursor_device false) 0 (by decide)⟩

/-! ## Display enumeration -/

/-- C9 (counterexample): with the one-shot flag unset, `vbox_get_modes` for
Display 1 reports the 800 x 600 request but leaves the flag unset and sends no
hotplug notification; and with the flag set, when `drm_cvt_mode` returns no
mode, no preferred mode is reported. -/
theorem vbox_get_modes_counterexample :
    (sample_probe_device false).initial_mode_queried = false ∧
    (vbox_get_modes (sample_probe_device false) 1 sample_noedid_count true).map
        (fun r => (r.1, r.2.initial_mode_queried, r.2.trace))
      = some (2, false, [Event.report_flags_location, Event.add_modes_noedid 800 600]) ∧
    (vbox_get_modes (sample_probe_device true) 1 sample_noedid_count false).map
        (fun r => (r.1, r.2.trace))
      = some (30, [Event.report_flags_location, Event.add_modes_noedid 2560 1600,
          Event.update_edid_property (vbox_set_edid 1280 1024),
          Event.property_set_value SuggestedProperty.suggested_x 1280,
          Event.property_set_value SuggestedProperty.suggested_y 0]) := by
  refine ⟨rfl, ?_, ?_⟩
  · decide
  · rfl

/-- C9 (amended): a `vbox_get_modes` call made while `initial_mode_queried` is
unset reports only the 800 x 600 fallback request and, when the Display's
index is 0, sets the flag and triggers a hotplug notification (for any other
Display the flag stays unset and no notification is sent); a call made while
the flag is set reports the standard list up to 2560 x 1600 plus, when
`drm_cvt_mode` returns a mode, one preferred mode built from the Display's hint
(1024 and 768 standing in for a zero hint). -/
theorem vbox_get_modes_spec (vbox : vbox_private) (idx : Nat)
    (noedid_count : Nat → Nat → Nat) (cvt_ok : Bool) (hidx : idx < vbox.crtcs.length) :
    (vbox.initial_mode_queried = false →
      ∃ vbox2, vbox_get_modes vbox idx noedid_count cvt_ok
          = some (noedid_count 800 600, vbox2) ∧
        vbox2.initial_mode_queried = (vbox.crtcs[idx].crtc_id == 0) ∧
        vbox2.trace = vbox.trace ++ [Event.report_flags_location] ++
          (if vbox.crtcs[idx].crtc_id = 0 then [Event.report_caps, Event.report_hotplug]
           else []) ++
          [Event.add_modes_noedid 800 600]) ∧
    (vbox.initial_mode_queried = true →
      ∃ vbox2, vbox_get_modes vbox idx noedid_count cvt_ok
          = some (if cvt_ok then wrapU32 (noedid_count 2560 1600 + 1)
                  else noedid_count 2560 1600, vbox2) ∧
        vbox2.initial_mode_queried = true ∧
        vbox2.trace = vbox.trace ++ [Event.report_flags_location] ++
          (if vbox.crtcs[idx].crtc_id = 0 then [Event.report_caps] else []) ++
          [Event.add_modes_noedid 2560 1600] ++
          (if cvt_ok then
            [Event.mode_probed_add
              (if vbox.crtcs[idx].mode_hint_width = 0 then 1024
               else vbox.crtcs[idx].mode_hint_width)
              (if vbox.crtcs[idx].mode_hint_height = 0 then 768
               else vbox.crtcs[idx].mode_hint_height) 60 true]
           else []) ++
          [Event.update_edid_property (vbox_set_edid
              (if vbox.crtcs[idx].mode_hint_width = 0 then 1024
               else vbox.crtcs[idx].mode_hint_width : Nat)
              (if vbox.crtcs[idx].mode_hint_height = 0 then 768
               else vbox.crtcs[idx].mode_hint_height : Nat)),
           Event.property_set_value SuggestedProperty.suggested_x
              (if toU32 vbox.crtcs[idx].x_hint = toU32 (-1) then 0
               else toU32 vbox.crtcs[idx].x_hint),
           Event.property_set_value SuggestedProperty.suggested_y
              (if toU32 vbox.crtcs[idx].y_hint = toU32 (-1) then 0
               else toU32 vbox.crtcs[idx].y_hint)]) := by
  constructor
  · intro hq
    unfold vbox_get_modes
    rw [List.getElem?_eq_getElem hidx]
    by_cases h0 : vbox.crtcs[idx].crtc_id = 0
    · simp [h0, hq, emit]
    · simp [h0, hq, emit]
  · intro hq
    unfold vbox_get_modes
    rw [List.getElem?_eq_getElem hidx]
    by_cases h0 : vbox.crtcs[idx].crtc_id = 0 <;> cases cvt_ok <;>
      by_cases hx : toU32 vbox.crtcs[idx].x_hint = toU32 (-1) <;>
      by_cases hy : toU32 vbox.crtcs[idx].y_hint = toU32 (-1) <;>
      by_cases hw : vbox.crtcs[idx].mode_hint_width = 0 <;>
      by_cases hh : vbox.crtcs[idx].mode_hint_height = 0 <;>
      simp [h0, hq, emit, hx, hy, hw, hh]

/-- C9 on two Displays: the first call, for Display 0, sets the flag and sends
the hotplug notification after the capability report. -/
theorem vbox_get_modes_spec_witness :
    0 < (sample_probe_device false).crtcs.length ∧
    ∃ vbox2, vbox_get_modes (sample_probe_device false) 0 sample_noedid_count true
        = some (2, vbox2) ∧
      vbox2.initial_mode_queried = true ∧
      vbox2.trace = [Event.report_flags_location, Event.report_caps, Event.report_hotplug,
        Event.add_modes_noedid 800 600] :=
  ⟨by decide,
   (vbox_get_modes_spec (sample_probe_device false) 0 sample_noedid_count true
      (by decide)).1 rfl⟩

/-! ## Mode set: failure to pin -/

/-- C10: when `vbox_bo_pin` fails in `vbox_crtc_mode_set` (on a crtc that has a
new framebuffer), the call returns the error and the device state is the one
before the call: no command or register write is added to the trace, no
Display field and no layout field changes, and no pin count changes (the old
Surface is not unpinned). -/
theorem vbox_crtc_mode_set_pin_failure (H : Header) (vbox : vbox_private) (idx : Nat)
    (mode : drm_display_mode) (x y : Int) (old_fb : Option drm_framebuffer)
    (pin_ret : Int) (alloc_ok : Bool) (new_fb : drm_framebuffer)
    (hidx : idx < vbox.crtcs.length)
    (hfb : vbox.crtcs[idx].primary_fb = some new_fb)
    (hpin : pin_ret ≠ 0) :
    vbox_crtc_mode_set H vbox idx mode x y old_fb pin_ret alloc_ok = some (pin_ret, vbox) ∧
    ∀ r, vbox_crtc_mode_set H vbox idx mode x y old_fb pin_ret alloc_ok = some r →
      r.1 = pin_ret ∧ r.2.trace = vbox.trace ∧ r.2.crtcs = vbox.crtcs ∧
      r.2.single_framebuffer = vbox.single_framebuffer ∧
      r.2.input_mapping_width = vbox.input_mapping_width ∧
      r.2.input_mapping_height = vbox.input_mapping_height ∧
      r.2.pin_count = vbox.pin_count ∧ r.2.hw_mutex = vbox.hw_mutex := by
  have key : vbox_crtc_mode_set H vbox idx mode x y old_fb pin_ret alloc_ok
      = some (pin_ret, vbox) := by
    unfold vbox_crtc_mode_set vbox_bo_pin
    rw [List.getElem?_eq_getElem hidx]
    simp [hfb, hpin]
  refine ⟨key, ?_⟩
  intro r hr
  rw [key] at hr
  cases hr
  simp

/-- C10 on one Display: a pin failing with `-ENOMEM` leaves the sample device
as it was. -/
theorem vbox_crtc_mode_set_pin_failure_witness :
    0 < sample_modeset_device.crtcs.length ∧ (-ENOMEM : Int) ≠ 0 ∧
    vbox_crtc_mode_set vboxHeader sample_modeset_device 0 ⟨800, 600⟩ 0 0
        (some (sample_fb 3 640 480 8)) (-ENOMEM) true
      = some (-ENOMEM, sample_modeset_device) :=
  ⟨by decide, by decide,
   (vbox_crtc_mode_set_pin_failure vboxHeader sample_modeset_device 0 ⟨800, 600⟩ 0 0
      (some (sample_fb 3 640 480 8)) (-ENOMEM) true (sample_fb 2 1024 768 7)
      (by decide) rfl (by decide)).1⟩

/-! ## Mask derivation is idempotent -/

theorem copy_cursor_pixel_cell (src : Mem) (width line_size i : Nat) (dst : Mem) (j k : Nat) :
    copy_cursor_pixel src width line_size i dst j k
      = cursor_cell src width line_size k i (dst k) j := by
  unfold copy_cursor_pixel or_byte cursor_cell
  by_cases h1 : read_u32 src (wrapU32 (wrapU32 (i * width) + j)) > 0xf0000000
  · by_cases h2 : wrapSize (wrapSize (i * line_size) + j / 8) = k
    · subst h2
      simp [h1]
    · simp [h1, h2, Function.update_noteq (Ne.symm h2)]
  · simp [h1]

theorem foldl_pixels_cell (src : Mem) (width line_size i k : Nat) (js : List Nat) (dst : Mem) :
    js.foldl (copy_cursor_pixel src width line_size i) dst k
      = js.foldl (cursor_cell src width line_size k i) (dst k) := by
  induction js generalizing dst with
  | nil => rfl
  | cons j t ih => rw [List.foldl_cons, List.foldl_cons, ih, copy_cursor_pixel_cell]

theorem foldl_rows_cell (src : Mem) (width line_size k : Nat) (is js : List Nat) (dst : Mem) :
    is.foldl (fun dst i => js.foldl (copy_cursor_pixel src width line_size i) dst) dst k
      = is.foldl (fun x i => js.foldl (cursor_cell src width line_size k i) x) (dst k) := by
  induction is generalizing dst with
  | nil => rfl
  | cons i t ih => rw [List.foldl_cons, List.foldl_cons, ih, foldl_pixels_cell]

/-- The byte `(x ||| v) % 256` absorbs a further `|= v`. -/
theorem or_byte_absorb (x v : Nat) : (((x ||| v) % 256) ||| v) % 256 = (x ||| v) % 256 := by
  apply Nat.eq_of_testBit_eq
  intro i
  have e : (256 : Nat) = 2 ^ 8 := by norm_num
  rw [e]
  simp only [Nat.testBit_mod_two_pow, Nat.testBit_or]
  cases decide (i < 8) <;> cases x.testBit i <;> cases v.testBit i <;> rfl

/-- A byte that absorbs `|= v` still does after a `|= w`. -/
theorem or_byte_absorb_keep (y v w : Nat) (h : (y ||| v) % 256 = y) :
    (((y ||| w) % 256) ||| v) % 256 = (y ||| w) % 256 := by
  apply Nat.eq_of_testBit_eq
  intro i
  have e : (256 : Nat) = 2 ^ 8 := by norm_num
  have hi := congrArg (fun n => n.testBit i) h
  rw [e] at hi ⊢
  simp only [Nat.testBit_mod_two_pow, Nat.testBit_or] at hi ⊢
  revert hi
  cases decide (i < 8) <;> cases y.testBit i <;> cases v.testBit i <;> cases w.testBit i <;> simp

theorem cursor_cell_self (src : Mem) (width line_size k i x j : Nat) :
    cursor_cell src width line_size k i (cursor_cell src width line_size k i x j) j
      = cursor_cell src width line_size k i x j := by
  unfold cursor_cell
  split_ifs
  · exact or_byte_absorb _ _
  · rfl

theorem cursor_cell_keep (src : Mem) (width line_size k a j b j2 x : Nat)
    (h : cursor_cell src width line_size k a x j = x) :
    cursor_cell src width line_size k a (cursor_cell src width line_size k b x j2) j
      = cursor_cell src width line_size k b x j2 := by
  unfold cursor_cell at h ⊢
  split_ifs at h ⊢ with h1 h2
  · exact or_byte_absorb_keep _ _ _ h
  · exact h
  · rfl
  · rfl

theorem foldl_cell_keep (src : Mem) (width line_size k a j b : Nat) (js : List Nat) (x : Nat)
    (h : cursor_cell src width line_size k a x j = x) :
    cursor_cell src width line_size k a (js.foldl (cursor_cell src width line_size k b) x) j
      = js.foldl (cursor_cell src width line_size k b) x := by
  induction js generalizing x with
  | nil => exact h
  | cons j2 t ih =>
    rw [List.foldl_cons]
    exact ih _ (cursor_cell_keep _ _ _ _ _ _ _ _ _ h)

theorem foldl_rows_keep (src : Mem) (width line_size k a j : Nat) (is js : List Nat) (x : Nat)
    (h : cursor_cell src width line_size k a x j = x) :
    cursor_cell src width line_size k a
        (is.foldl (fun x i => js.foldl (cursor_cell src width line_size k i) x) x) j
      = is.foldl (fun x i => js.foldl (cursor_cell src width line_size k i) x) x := by
  induction is generalizing x with
  | nil => exact h
  | cons b t ih =>
    rw [List.foldl_cons]
    exact ih _ (foldl_cell_keep _ _ _ _ _ _ _ _ _ h)

theorem foldl_cell_fixes (src : Mem) (width line_size k i : Nat) (js : List Nat) (x : Nat) :
    ∀ j ∈ js, cursor_cell src width line_size k i
        (js.foldl (cursor_cell src width line_size k i) x) j
      = js.foldl (cursor_cell src width line_size k i) x := by
  induction js generalizing x with
  | nil => intro j hj; cases hj
  | cons j0 t ih =>
    intro j hj
    rw [List.foldl_cons]
    rcases List.mem_cons.mp hj with e | e
    · subst e
      exact foldl_cell_keep _ _ _ _ _ _ _ _ _ (cursor_cell_self _ _ _ _ _ _ _)
    · exact ih _ j e

theorem foldl_rows_fixes (src : Mem) (width line_size k : Nat) (is js : List Nat) (x : Nat) :
    ∀ i ∈ is, ∀ j ∈ js, cursor_cell src width line_size k i
        (is.foldl (fun x i => js.foldl (cursor_cell src width line_size k i) x) x) j
      = is.foldl (fun x i => js.foldl (cursor_cell src width line_size k i) x) x := by
  induction is generalizing x with
  | nil => intro i hi; cases hi
  | cons i0 t ih =>
    intro i hi j hj
    rw [List.foldl_cons]
    rcases List.mem_cons.mp hi with e | e
    · subst e
      exact foldl_rows_keep _ _ _ _ _ _ _ _ _ (foldl_cell_fixes _ _ _ _ _ _ _ j hj)
    · exact ih _ i e j hj

theorem foldl_cell_fixed (src : Mem) (width line_size k i : Nat) (js : List Nat) (x : Nat)
    (h : ∀ j ∈ js, cursor_cell src width line_size k i x j = x) :
    js.foldl (cursor_cell src width line_size k i) x = x := by
  induction js with
  | nil => rfl
  | cons j0 t ih =>
    rw [List.foldl_cons, h j0 (List.mem_cons_self _ _)]
    exact ih (fun j hj => h j (List.mem_cons_of_mem _ hj))

theorem foldl_rows_fixed (src : Mem) (width line_size k : Nat) (is js : List Nat) (x : Nat)
    (h : ∀ i ∈ is, ∀ j ∈ js, cursor_cell src width line_size k i x j = x) :
    is.foldl (fun x i => js.foldl (cursor_cell src width line_size k i) x) x = x := by
  induction is with
  | nil => rfl
  | cons i0 t ih =>
    rw [List.foldl_cons, foldl_cell_fixed _ _ _ _ _ _ _ (h i0 (List.mem_cons_self _ _))]
    exact ih (fun i hi => h i (List.mem_cons_of_mem _ hi))

/-- C14: for every source, width, height, mask size and initial destination,
a second run of `copy_cursor_image` with the same arguments on the buffer the
first run produced gives that same buffer back, byte for byte (mask region
included). -/
theorem copy_cursor_image_idempotent (src dst : Mem) (width height mask_size : Nat) :
    copy_cursor_image src (copy_cursor_image src dst width height mask_size)
        width height mask_size
      = copy_cursor_image src dst width height mask_size := by
  funext k
  have hrun : ∀ d : Mem, copy_cursor_image src d width height mask_size k
      = (List.range height).foldl (fun x i => (List.range width).foldl
          (cursor_cell src width (wrapU32 (width + 7) / 8) k i) x)
          (memcpy d mask_size src (wrapU32 (wrapU32 (width * height) * 4)) k) := by
    intro d
    unfold copy_cursor_image
    exact foldl_rows_cell _ _ _ _ _ _ _
  rw [hrun (copy_cursor_image src dst width height mask_size)]
  by_cases hk : mask_size ≤ k ∧ k < mask_size + wrapU32 (wrapU32 (width * height) * 4)
  · have e : ∀ d : Mem, memcpy d mask_size src (wrapU32 (wrapU32 (width * height) * 4)) k
        = src (k - mask_size) := by
      intro d
      unfold memcpy
      rw [if_pos hk]
    rw [hrun dst, e, e]
  · have e : ∀ d : Mem, memcpy d mask_size src (wrapU32 (wrapU32 (width * height) * 4)) k
        = d k := by
      intro d
      unfold memcpy
      rw [if_neg hk]
    rw [e, hrun dst]
    exact foldl_rows_fixed _ _ _ _ _ _ _ (foldl_rows_fixes _ _ _ _ _ _ _)

/-! ## EDID: reading the size back -/

theorem toU8_andMask_ff (n : Nat) (hn : n < 2 ^ 32) : toU8 (andMask (n : Int) 0xff) = n % 256 := by
  unfold toU8 andMask toU32
  have e : ((n : Int) % 2 ^ 32).toNat = n := by omega
  rw [e, and_ff]
  omega

theorem toU8_shift8 (n : Nat) (hn : n < 65536) : toU8 ((n : Int) >>> 8) = n / 256 := by
  have e : (n : Int) >>> 8 = ((n >>> 8 : Nat) : Int) := rfl
  rw [e, Nat.shiftRight_eq_div_pow]
  unfold toU8
  omega

set_option maxRecDepth 100000 in
theorem and_f0_shift (x : Nat) (hx : x < 256) : (x &&& 0xf0) >>> 4 = x / 16 ∧ x &&& 0xf0 < 256 := by
  revert x
  decide

theorem toU8_nibble (n : Nat) (hn : n < 4096) :
    toU8 (andMask ((n : Int) >>> 4) 0xf0) >>> 4 = n / 256 := by
  have e : (n : Int) >>> 4 = ((n / 16 : Nat) : Int) := by
    have e0 : (n : Int) >>> 4 = ((n >>> 4 : Nat) : Int) := rfl
    rw [e0, Nat.shiftRight_eq_div_pow]
  have e2 : toU32 ((n / 16 : Nat) : Int) = n / 16 := by
    unfold toU32
    omega
  obtain ⟨h1, h2⟩ := and_f0_shift (n / 16) (by omega)
  have e3 : toU8 ((n / 16 &&& 0xf0 : Nat) : Int) = n / 16 &&& 0xf0 := by
    unfold toU8
    omega
  rw [e]
  unfold andMask
  rw [e2, e3, h1]
  omega

theorem vbox_set_edid_fields (width height : Int) :
    (vbox_set_edid width height).getD 12 0 = toU8 (andMask width 0xff) ∧
    (vbox_set_edid width height).getD 13 0 = toU8 (width >>> 8) ∧
    (vbox_set_edid width height).getD 14 0 = toU8 (andMask height 0xff) ∧
    (vbox_set_edid width height).getD 15 0 = toU8 (height >>> 8) ∧
    (vbox_set_edid width height).getD 56 0 = toU8 (andMask width 0xff) ∧
    (vbox_set_edid width height).getD 58 0 = toU8 (andMask (width >>> 4) 0xf0) ∧
    (vbox_set_edid width height).getD 59 0 = toU8 (andMask height 0xff) ∧
    (vbox_set_edid width height).getD 61 0 = toU8 (andMask (height >>> 4) 0xf0) := by
  simp [vbox_set_edid, edid_patched, edid_template, EDID_SIZE, List.getD]

/-- C19: the width and height patched into the EDID by `vbox_set_edid` can be
read back. For `0 <= width, height < 65536` the serial-number field holds them
little-endian (`edid[12] + 256*edid[13]`, `edid[14] + 256*edid[15]`); for a
width below 4096 the detailed-timing field gives it back as
`edid[56] + 256*(edid[58] >> 4)`, and for a height below 4096 as
`edid[59] + 256*(edid[61] >> 4)`. -/
theorem vbox_set_edid_readback (width height : Int)
    (hw0 : 0 ≤ width) (hw : width < 65536) (hh0 : 0 ≤ height) (hh : height < 65536) :
    width = (((vbox_set_edid width height).getD 12 0
              + 256 * (vbox_set_edid width height).getD 13 0 : Nat) : Int) ∧
    height = (((vbox_set_edid width height).getD 14 0
              + 256 * (vbox_set_edid width height).getD 15 0 : Nat) : Int) ∧
    (width < 4096 →
      width = (((vbox_set_edid width height).getD 56 0
                + 256 * ((vbox_set_edid width height).getD 58 0 >>> 4) : Nat) : Int)) ∧
    (height < 4096 →
      height = (((vbox_set_edid width height).getD 59 0
                + 256 * ((vbox_set_edid width height).getD 61 0 >>> 4) : Nat) : Int)) := by
  obtain ⟨w, rfl⟩ := Int.eq_ofNat_of_zero_le hw0
  obtain ⟨h, rfl⟩ := Int.eq_ofNat_of_zero_le hh0
  have hw2 : w < 65536 := by omega
  have hh2 : h < 65536 := by omega
  obtain ⟨f12, f13, f14, f15, f56, f58, f59, f61⟩ := vbox_set_edid_fields (w : Int) (h : Int)
  rw [f12, f13, f14, f15, f56, f58, f59, f61]
  rw [toU8_andMask_ff w (by omega), toU8_andMask_ff h (by omega), toU8_shift8 w hw2,
    toU8_shift8 h hh2]
  refine ⟨by omega, by omega, ?_, ?_⟩
  · intro hlt
    rw [toU8_nibble w (by omega)]
    omega
  · intro hlt
    rw [toU8_nibble h (by omega)]
    omega

/-- C19 at 1024 x 768. -/
theorem vbox_set_edid_readback_witness :
    (1024 : Int) = (((vbox_set_edid 1024 768).getD 12 0
              + 256 * (vbox_set_edid 1024 768).getD 13 0 : Nat) : Int) ∧
    (768 : Int) = (((vbox_set_edid 1024 768).getD 14 0
              + 256 * (vbox_set_edid 1024 768).getD 15 0 : Nat) : Int) ∧
    ((1024 : Int) < 4096 →
      (1024 : Int) = (((vbox_set_edid 1024 768).getD 56 0
                + 256 * ((vbox_set_edid 1024 768).getD 58 0 >>> 4) : Nat) : Int)) ∧
    ((768 : Int) < 4096 →
      (768 : Int) = (((vbox_set_edid 1024 768).getD 59 0
                + 256 * ((vbox_set_edid 1024 768).getD 61 0 >>> 4) : Nat) : Int)) :=
  vbox_set_edid_readback 1024 768 (by decide) (by decide) (by decide) (by decide)

/-! ## `vbox_do_modeset`: shape of the calls -/

theorem regs_are_register_writes (legacy : Bool) (l : List Event)
    (hl : ∀ e ∈ l, e.is_register_write = true) :
    ∀ e ∈ (if legacy = true then l else []), e.is_register_write = true := by
  intro e he
  cases legacy with
  | false => simp at he
  | true => exact hl e (by simpa using he)

/-- The calls of `vbox_do_modeset`: the legacy register writes, if the guard
holds, and then the display-info command. -/
theorem vbox_do_modeset_shape (H : Header) (vbox : vbox_private) (crtc : vbox_crtc)
    (evs : List Event) (h : vbox_do_modeset H vbox crtc = some evs) :
    ∃ bpp pitch legacy regs d ox oy so w ht b,
      (crtc.enabled = true →
        ∃ fb, crtc.primary_fb = some fb ∧ bpp = fb.cpp * 8 ∧ pitch = fb.pitch) ∧
      (crtc.enabled = false → bpp = 32) ∧
      legacy_guard crtc bpp pitch = some legacy ∧
      evs = regs ++ [Event.process_display_info d ox oy so pitch w ht b (screen_flags H crtc)] ∧
      (∀ e ∈ regs, e.is_register_write = true) ∧
      (legacy = true → regs.length = 7) ∧
      (legacy = false → regs = []) := by
  unfold vbox_do_modeset at h
  cases hen : crtc.enabled with
  | false =>
    simp only [hen, Bool.false_eq_true, if_false, Option.bind_eq_bind, Option.some_bind,
      Option.pure_def, Option.bind_eq_some, Option.some.injEq] at h
    obtain ⟨legacy, hleg, hevs⟩ := h
    refine ⟨32, _, legacy, _, _, _, _, _, _, _, _, ?_, ?_, hleg, hevs.symm, ?_, ?_, ?_⟩
    · intro hc; cases hc
    · intro _; rfl
    · apply regs_are_register_writes
      intro e he
      simp only [List.mem_cons, List.mem_singleton, List.not_mem_nil, or_false] at he
      rcases he with e1 | e1 | e1 | e1 | e1 | e1 | e1 <;> (subst e1; rfl)
    · intro hl; subst hl; rfl
    · intro hl; subst hl; rfl
  | true =>
    cases hfb : crtc.primary_fb with
    | none => simp [hen, hfb] at h
    | some fb =>
      simp only [hen, hfb, if_true, Option.map_some', Option.bind_eq_bind, Option.some_bind,
        Option.pure_def, Option.bind_eq_some, Option.some.injEq] at h
      obtain ⟨legacy, hleg, hevs⟩ := h
      refine ⟨fb.cpp * 8, fb.pitch, legacy, _, _, _, _, _, _, _, _, ?_, ?_, hleg, hevs.symm,
        ?_, ?_, ?_⟩
      · intro _; exact ⟨fb, rfl, rfl, rfl⟩
      · intro hc; cases hc
      · apply regs_are_register_writes
        intro e he
        simp only [List.mem_cons, List.mem_singleton, List.not_mem_nil, or_false] at he
        rcases he with e1 | e1 | e1 | e1 | e1 | e1 | e1 <;> (subst e1; rfl)
      · intro hl; subst hl; rfl
      · intro hl; subst hl; rfl

theorem legacy_guard_returns (crtc : vbox_crtc) (bpp pitch : Nat)
    (h : crtc.enabled = true → pitch ≠ 0 ∧ bpp / 8 ≠ 0) :
    ∃ legacy, legacy_guard crtc bpp pitch = some legacy := by
  unfold legacy_guard
  cases hen : crtc.enabled with
  | false => simp
  | true =>
    obtain ⟨hp, hb⟩ := h hen
    by_cases h0 : crtc.crtc_id = 0
    · by_cases hlt : wrapU32 (crtc.fb_offset / pitch) < toU32 (0xffff - crtc.base_y)
      · simp [h0, hp, hb, hlt]
      · simp [h0, hp, hlt]
    · simp [h0]

/-- On a Display that is not enabled, or that has a framebuffer of non-zero
pitch and pixel size, `vbox_do_modeset` returns. -/
theorem vbox_do_modeset_returns (H : Header) (vbox : vbox_private) (crtc : vbox_crtc)
    (hwf : crtc_wf crtc) : ∃ evs, vbox_do_modeset H vbox crtc = some evs := by
  unfold vbox_do_modeset
  cases hen : crtc.enabled with
  | false =>
    have hl : ∀ bpp pitch, legacy_guard crtc bpp pitch = some false := by
      intro bpp pitch
      unfold legacy_guard
      simp [hen]
    simp only [Bool.false_eq_true, if_false, Option.bind_eq_bind, Option.some_bind,
      Option.pure_def, hl]
    exact ⟨_, rfl⟩
  | true =>
    obtain ⟨fb, hfb, hp, hc⟩ := hwf hen
    obtain ⟨legacy, hl⟩ := legacy_guard_returns crtc (fb.cpp * 8) fb.pitch
      (fun _ => ⟨hp, by omega⟩)
    simp only [hfb, Option.map_some', if_true, Option.bind_eq_bind, Option.some_bind,
      Option.pure_def, hl]
    exact ⟨_, rfl⟩

/-! ## Display-info flags -/

/-- C18: the display-info command is the last call `vbox_do_modeset` makes (the
calls before it are legacy register writes) and its flags field is
`screen_flags`; the three flag constants being different single bits of a
`u16`, that field has the ACTIVE bit set, the BLANK bit set exactly when the
Display is not enabled or is blanked, the DISABLED bit set exactly when the
Display is disconnected, and no other bit set. -/
theorem display_info_flags (H : Header) (vbox : vbox_private) (crtc : vbox_crtc)
    (a b d : Nat)
    (hA : H.VBVA_SCREEN_F_ACTIVE = 2 ^ a) (hB : H.VBVA_SCREEN_F_BLANK = 2 ^ b)
    (hD : H.VBVA_SCREEN_F_DISABLED = 2 ^ d)
    (hab : a ≠ b) (had : a ≠ d) (hbd : b ≠ d) (ha : a < 16) (hb : b < 16) (hd : d < 16) :
    (crtc_wf crtc → ∃ evs, vbox_do_modeset H vbox crtc = some evs) ∧
    (∀ evs, vbox_do_modeset H vbox crtc = some evs →
      ∃ regs id ox oy so p w ht bpp,
        evs = regs ++ [Event.process_display_info id ox oy so p w ht bpp (screen_flags H crtc)] ∧
        ∀ e ∈ regs, e.is_register_write = true) ∧
    (screen_flags H crtc).testBit a = true ∧
    ((screen_flags H crtc).testBit b = true ↔ (crtc.enabled = false ∨ crtc.blanked = true)) ∧
    ((screen_flags H crtc).testBit d = true ↔ crtc.disconnected = true) ∧
    (∀ i, i ≠ a → i ≠ b → i ≠ d → (screen_flags H crtc).testBit i = false) := by
  refine ⟨vbox_do_modeset_returns H vbox crtc, ?_, ?_⟩
  · intro evs h
    obtain ⟨bpp, pitch, legacy, regs, id, ox, oy, so, w, ht, bb, -, -, -, he, hr, -, -⟩ :=
      vbox_do_modeset_shape H vbox crtc evs h
    exact ⟨regs, id, ox, oy, so, pitch, w, ht, bb, he, hr⟩
  · have hbit : ∀ i, (screen_flags H crtc).testBit i
        = (decide (i < 16) && (decide (a = i) ||
            ((!(crtc.enabled && !crtc.blanked)) && decide (b = i)) ||
            (crtc.disconnected && decide (d = i)))) := by
      intro i
      unfold screen_flags
      simp only [hA, hB, hD, Nat.testBit_mod_two_pow, Nat.testBit_or]
      cases crtc.enabled <;> cases crtc.blanked <;> cases crtc.disconnected <;>
        simp [Nat.testBit_two_pow]
    refine ⟨?_, ?_, ?_, ?_⟩
    · rw [hbit]; simp [ha]
    · rw [hbit]
      cases crtc.enabled <;> cases crtc.blanked <;> simp [hb, hab, hbd, Ne.symm hbd]
    · rw [hbit]
      cases crtc.disconnected <;> simp [hd, had, hbd]
    · intro i hia hib hid
      rw [hbit]
      simp [Ne.symm hia, Ne.symm hib, Ne.symm hid]

/-- C18 at the header values of the driver (ACTIVE 1, DISABLED 2, BLANK 4). -/
theorem display_info_flags_witness :
    (screen_flags vboxHeader (sample_crtc 0 none 0 0 0 0)).testBit 0 = true ∧
    ((screen_flags vboxHeader (sample_crtc 0 none 0 0 0 0)).testBit 2 = true ↔
      ((sample_crtc 0 none 0 0 0 0).enabled = false ∨
        (sample_crtc 0 none 0 0 0 0).blanked = true)) ∧
    ((screen_flags vboxHeader (sample_crtc 0 none 0 0 0 0)).testBit 1 = true ↔
      (sample_crtc 0 none 0 0 0 0).disconnected = true) ∧
    (∀ i, i ≠ 0 → i ≠ 2 → i ≠ 1 →
      (screen_flags vboxHeader (sample_crtc 0 none 0 0 0 0)).testBit i = false) :=
  (display_info_flags vboxHeader (sample_device []) (sample_crtc 0 none 0 0 0 0) 0 2 1
    rfl rfl rfl (by decide) (by decide) (by decide) (by decide) (by decide) (by decide)).2.2

/-! ## Legacy register path -/

theorem legacy_guard_true_iff (crtc : vbox_crtc) (bpp pitch : Nat) :
    legacy_guard crtc bpp pitch = some true ↔
      (crtc.crtc_id = 0 ∧ crtc.enabled = true ∧ pitch ≠ 0 ∧
        wrapU32 (crtc.fb_offset / pitch) < toU32 (0xffff - crtc.base_y) ∧
        bpp / 8 ≠ 0 ∧ crtc.fb_offset % (bpp / 8) = 0) := by
  unfold legacy_guard
  by_cases h0 : crtc.crtc_id = 0 <;> cases hen : crtc.enabled <;>
    by_cases hp : pitch = 0 <;>
    by_cases hlt : wrapU32 (crtc.fb_offset / pitch) < toU32 (0xffff - crtc.base_y) <;>
    by_cases hb : bpp / 8 = 0 <;> simp [h0, hp, hlt, hb]

theorem register_write_iff_legacy (legacy : Bool) (regs : List Event) (last : Event)
    (hr : ∀ e ∈ regs, e.is_register_write = true) (hlast : last.is_register_write = false)
    (h7 : legacy = true → regs.length = 7) (h0 : legacy = false → regs = []) :
    (∃ e ∈ regs ++ [last], e.is_register_write = true) ↔ legacy = true := by
  cases legacy with
  | false =>
    rw [h0 rfl]
    simp [hlast]
  | true =>
    simp only [iff_true]
    have hlen := h7 rfl
    cases regs with
    | nil => simp at hlen
    | cons e t => exact ⟨e, by simp, hr e (List.mem_cons_self _ _)⟩

/-- C17 (counterexample): Display 0, enabled, pitch 4096, 32 bpp, surface
offset 4: the offset is not a multiple of the pitch, yet `vbox_do_modeset`
writes the seven legacy registers. -/
theorem legacy_registers_counterexample :
    (sample_legacy_crtc 4).fb_offset % 4096 ≠ 0 ∧
    vbox_do_modeset vboxHeader (sample_device []) (sample_legacy_crtc 4)
      = some [Event.write_ioport 1 640, Event.write_ioport 2 480, Event.write_ioport 6 1024,
          Event.write_ioport 3 32, Event.write_ioport 4 1, Event.write_ioport 8 0,
          Event.write_ioport 9 0,
          Event.process_display_info 0 0 0 0 4096 640 480 32 1] := by
  decide

/-- C17 (amended): for a vertical position `0 <= y <= 0xffff` of the crtc and
a surface offset that fits 32 bits, `vbox_do_modeset` writes legacy registers
if and only if the Display's index is 0, the Display is enabled, its surface
offset is a multiple of the bytes per pixel of its Surface (`bpp / 8`), and
the line count `fb_offset / pitch` is below `0xffff - y`; it then writes the
seven registers, and otherwise no legacy register at all. -/
theorem legacy_registers_iff (H : Header) (vbox : vbox_private) (crtc : vbox_crtc)
    (evs : List Event) (h : vbox_do_modeset H vbox crtc = some evs)
    (hy0 : 0 ≤ crtc.base_y) (hy1 : crtc.base_y ≤ 0xffff) (hoff : crtc.fb_offset < 2 ^ 32) :
    ((∃ e ∈ evs, e.is_register_write = true) ↔
      (crtc.crtc_id = 0 ∧ crtc.enabled = true ∧
        ∃ fb, crtc.primary_fb = some fb ∧ crtc.fb_offset % (fb.cpp * 8 / 8) = 0 ∧
          ((crtc.fb_offset / fb.pitch : Nat) : Int) < 0xffff - crtc.base_y)) ∧
    ((∃ e ∈ evs, e.is_register_write = true) →
      (evs.filter Event.is_register_write).length = 7) ∧
    ((¬ ∃ e ∈ evs, e.is_register_write = true) →
      ∃ d ox oy so p w ht b f, evs = [Event.process_display_info d ox oy so p w ht b f]) := by
  obtain ⟨bpp, pitch, legacy, regs, d, ox, oy, so, w, ht, b, hen1, hen0, hleg, he, hr, h7, h0⟩ :=
    vbox_do_modeset_shape H vbox crtc evs h
  have hiff := register_write_iff_legacy legacy regs
    (Event.process_display_info d ox oy so pitch w ht b (screen_flags H crtc)) hr rfl h7 h0
  rw [← he] at hiff
  have hlt : ∀ p : Nat, wrapU32 (crtc.fb_offset / p) < toU32 (0xffff - crtc.base_y) ↔
      ((crtc.fb_offset / p : Nat) : Int) < 0xffff - crtc.base_y := by
    intro p
    have hdiv : crtc.fb_offset / p ≤ crtc.fb_offset := Nat.div_le_self _ _
    generalize crtc.fb_offset / p = q at hdiv ⊢
    unfold wrapU32 toU32
    omega
  refine ⟨?_, ?_, ?_⟩
  · rw [hiff]
    cases legacy with
    | true =>
      obtain ⟨h1, h2, h3, h4, h5, h6⟩ := (legacy_guard_true_iff crtc bpp pitch).mp hleg
      obtain ⟨fb, hfb, hb, hp⟩ := hen1 h2
      subst hb hp
      simp only [true_iff]
      exact ⟨h1, h2, fb, hfb, h6, (hlt _).mp h4⟩
    | false =>
      simp only [Bool.false_eq_true, false_iff]
      rintro ⟨h1, h2, fb, hfb, h6, h4⟩
      obtain ⟨fb2, hfb2, hb, hp⟩ := hen1 h2
      rw [hfb] at hfb2
      cases hfb2
      subst hb hp
      have hp0 : fb.pitch ≠ 0 := by
        intro e
        unfold legacy_guard at hleg
        simp [h1, h2, e] at hleg
      have hb0 : fb.cpp * 8 / 8 ≠ 0 := by
        intro e
        unfold legacy_guard at hleg
        simp [h1, h2, hp0, e, (hlt _).mpr h4] at hleg
      have := (legacy_guard_true_iff crtc (fb.cpp * 8) fb.pitch).mpr
        ⟨h1, h2, hp0, (hlt _).mpr h4, hb0, h6⟩
      rw [this] at hleg
      cases hleg
  · intro hex
    have hl := hiff.mp hex
    have hlen := h7 hl
    rw [he, List.filter_append]
    have hall : regs.filter Event.is_register_write = regs :=
      List.filter_eq_self.mpr hr
    rw [hall]
    simp [hlen, Event.is_register_write]
  · intro hno
    have hl : legacy = false := by
      cases legacy with
      | false => rfl
      | true => exact absurd (hiff.mpr rfl) hno
    rw [he, h0 hl]
    exact ⟨_, _, _, _, _, _, _, _, _, rfl⟩

/-- C17 on Display 0 at surface offset 4: the guard holds and the seven
registers are written. -/
theorem legacy_registers_iff_witness :
    ((∃ e ∈ [Event.write_ioport 1 640, Event.write_ioport 2 480, Event.write_ioport 6 1024,
          Event.write_ioport 3 32, Event.write_ioport 4 1, Event.write_ioport 8 0,
          Event.write_ioport 9 0,
          Event.process_display_info 0 0 0 0 4096 640 480 32 1],
        e.is_register_write = true) ↔
      ((sample_legacy_crtc 4).crtc_id = 0 ∧ (sample_legacy_crtc 4).enabled = true ∧
        ∃ fb, (sample_legacy_crtc 4).primary_fb = some fb ∧
          (sample_legacy_crtc 4).fb_offset % (fb.cpp * 8 / 8) = 0 ∧
          (((sample_legacy_crtc 4).fb_offset / fb.pitch : Nat) : Int)
            < 0xffff - (sample_legacy_crtc 4).base_y)) :=
  (legacy_registers_iff vboxHeader (sample_device []) (sample_legacy_crtc 4) _
    (by decide) (by decide) (by decide) (by decide)).1

/-! ## Views -/

theorem vbox_set_view_ok (H : Header) (vbox : vbox_private) (crtc : vbox_crtc)
    (hin : crtc.fb_offset ≤ vbox.available_vram_size)
    (hfit : vbox.available_vram_size + crtc.crtc_id * H.VBVA_MIN_BUFFER_SIZE < 2 ^ 32) :
    vbox_set_view H vbox crtc true
      = (0, [Event.info_view crtc.crtc_id crtc.fb_offset
              (vbox.available_vram_size - crtc.fb_offset
                + crtc.crtc_id * H.VBVA_MIN_BUFFER_SIZE)
              (vbox.available_vram_size - crtc.fb_offset)]) := by
  unfold vbox_set_view
  have e : (crtc.crtc_id : Int) * (H.VBVA_MIN_BUFFER_SIZE : Int)
      = ((crtc.crtc_id * H.VBVA_MIN_BUFFER_SIZE : Nat) : Int) := by push_cast; rfl
  rw [e]
  generalize crtc.crtc_id * H.VBVA_MIN_BUFFER_SIZE = k at hfit ⊢
  have e1 : toU32 ((vbox.available_vram_size : Int) - (crtc.fb_offset : Int) + (k : Int))
      = vbox.available_vram_size - crtc.fb_offset + k := by
    unfold toU32; omega
  have e2 : toU32 ((vbox.available_vram_size : Int) - (crtc.fb_offset : Int))
      = vbox.available_vram_size - crtc.fb_offset := by
    unfold toU32; omega
  simp [e1, e2]

/-- C16 (counterexample): with 16 MiB of video memory, Display 0 at surface
offset 0 and Display 1 at surface offset 4 MiB get the views `[0, 16 MiB)` and
`[4 MiB, 16 MiB + 64 KiB)`, which are not disjoint. -/
theorem set_view_disjoint_counterexample :
    vbox_set_view vboxHeader (sample_device []) (sample_legacy_crtc 0) true
      = (0, [Event.info_view 0 0 0x1000000 0x1000000]) ∧
    vbox_set_view vboxHeader (sample_device [])
        { sample_legacy_crtc 0x400000 with crtc_id := 1 } true
      = (0, [Event.info_view 1 0x400000 0xC10000 0xC00000]) ∧
    ¬ regions_disjoint 0 0x1000000 0x400000 0xC10000 := by
  refine ⟨by decide, by decide, ?_⟩
  intro h
  exact h 0x400000 (by decide)

/-- C16 (amended): for two Displays with surface offsets inside available
video memory and with `available_vram_size + crtc_id * VBVA_MIN_BUFFER_SIZE`
below 2^32 for both (so that the 32-bit `view_size` does not wrap), the view
of a Display runs from its surface offset to
`available_vram_size + crtc_id * VBVA_MIN_BUFFER_SIZE`; the two views are not
disjoint (both contain the managed memory from the larger offset on), and the
Display with the larger index has the view that ends later. -/
theorem set_view_regions (H : Header) (vbox : vbox_private) (c1 c2 : vbox_crtc)
    (hin1 : c1.fb_offset < vbox.available_vram_size)
    (hin2 : c2.fb_offset < vbox.available_vram_size)
    (hfit1 : vbox.available_vram_size + c1.crtc_id * H.VBVA_MIN_BUFFER_SIZE < 2 ^ 32)
    (hfit2 : vbox.available_vram_size + c2.crtc_id * H.VBVA_MIN_BUFFER_SIZE < 2 ^ 32) :
    ∃ s1 m1 s2 m2,
      vbox_set_view H vbox c1 true = (0, [Event.info_view c1.crtc_id c1.fb_offset s1 m1]) ∧
      vbox_set_view H vbox c2 true = (0, [Event.info_view c2.crtc_id c2.fb_offset s2 m2]) ∧
      c1.fb_offset + s1 = vbox.available_vram_size + c1.crtc_id * H.VBVA_MIN_BUFFER_SIZE ∧
      c2.fb_offset + s2 = vbox.available_vram_size + c2.crtc_id * H.VBVA_MIN_BUFFER_SIZE ∧
      ¬ regions_disjoint c1.fb_offset s1 c2.fb_offset s2 ∧
      (c1.crtc_id < c2.crtc_id → 0 < H.VBVA_MIN_BUFFER_SIZE →
        c1.fb_offset + s1 < c2.fb_offset + s2) := by
  refine ⟨_, _, _, _, vbox_set_view_ok H vbox c1 (Nat.le_of_lt hin1) hfit1,
    vbox_set_view_ok H vbox c2 (Nat.le_of_lt hin2) hfit2, by omega, by omega, ?_, ?_⟩
  · intro h
    apply h (max c1.fb_offset c2.fb_offset)
    have m1 := Nat.le_max_left c1.fb_offset c2.fb_offset
    have m2 := Nat.le_max_right c1.fb_offset c2.fb_offset
    have m3 : max c1.fb_offset c2.fb_offset < vbox.available_vram_size :=
      Nat.max_lt.mpr ⟨hin1, hin2⟩
    refine ⟨m1, by omega, m2, by omega⟩
  · intro hlt hpos
    have := Nat.mul_lt_mul_of_pos_right hlt hpos
    omega

/-- C16 on the two sample Displays (16 MiB of video memory, offsets 0 and
4 MiB): both views are issued and they overlap. -/
theorem set_view_regions_witness :
    ∃ s1 m1 s2 m2,
      vbox_set_view vboxHeader (sample_device []) (sample_legacy_crtc 0) true
        = (0, [Event.info_view 0 0 s1 m1]) ∧
      vbox_set_view vboxHeader (sample_device [])
          { sample_legacy_crtc 0x400000 with crtc_id := 1 } true
        = (0, [Event.info_view 1 0x400000 s2 m2]) ∧
      0 + s1 = 0x1000000 + 0 * 65536 ∧
      0x400000 + s2 = 0x1000000 + 1 * 65536 ∧
      ¬ regions_disjoint 0 s1 0x400000 s2 ∧
      ((0 : Nat) < 1 → (0 : Nat) < 65536 → 0 + s1 < 0x400000 + s2) :=
  set_view_regions vboxHeader (sample_device []) (sample_legacy_crtc 0)
    { sample_legacy_crtc 0x400000 with crtc_id := 1 }
    (by decide) (by decide) (by decide) (by decide)

/-! ## Suggested position -/

/-- C15 (counterexample): a Display with the hint (-2, -5): the non-initial
`vbox_get_modes` forwards 4294967294 and 4294967291 (the hints read as
`u32`) as suggested position, not 0. -/
theorem suggested_position_counterexample :
    (vbox_get_modes (sample_hint_device (-2) (-5)) 0 sample_noedid_count true).map
        (fun r => r.2.trace)
      = some [Event.report_flags_location, Event.report_caps,
          Event.add_modes_noedid 2560 1600, Event.mode_probed_add 1280 1024 60 true,
          Event.update_edid_property (vbox_set_edid 1280 1024),
          Event.property_set_value SuggestedProperty.suggested_x 4294967294,
          Event.property_set_value SuggestedProperty.suggested_y 4294967291] := by
  rfl

/-- The calls of a non-initial `vbox_get_modes`, in order. -/
theorem vbox_get_modes_queried (vbox : vbox_private) (idx : Nat)
    (noedid_count : Nat → Nat → Nat) (cvt_ok : Bool) (hidx : idx < vbox.crtcs.length)
    (hq : vbox.initial_mode_queried = true) :
    ∃ vbox2, vbox_get_modes vbox idx noedid_count cvt_ok
        = some (if cvt_ok then wrapU32 (noedid_count 2560 1600 + 1)
                else noedid_count 2560 1600, vbox2) ∧
      vbox2.trace = vbox.trace ++
        ([Event.report_flags_location] ++
          (if vbox.crtcs[idx].crtc_id = 0 then [Event.report_caps] else []) ++
          [Event.add_modes_noedid 2560 1600] ++
          (if cvt_ok then
            [Event.mode_probed_add
              (if vbox.crtcs[idx].mode_hint_width = 0 then 1024
               else vbox.crtcs[idx].mode_hint_width)
              (if vbox.crtcs[idx].mode_hint_height = 0 then 768
               else vbox.crtcs[idx].mode_hint_height) 60 true]
           else []) ++
          [Event.update_edid_property (vbox_set_edid
              (if vbox.crtcs[idx].mode_hint_width = 0 then 1024
               else vbox.crtcs[idx].mode_hint_width : Nat)
              (if vbox.crtcs[idx].mode_hint_height = 0 then 768
               else vbox.crtcs[idx].mode_hint_height : Nat))]) ++
        [Event.property_set_value SuggestedProperty.suggested_x
            (if toU32 vbox.crtcs[idx].x_hint = toU32 (-1) then 0
               else toU32 vbox.crtcs[idx].x_hint),
         Event.property_set_value SuggestedProperty.suggested_y
            (if toU32 vbox.crtcs[idx].y_hint = toU32 (-1) then 0
               else toU32 vbox.crtcs[idx].y_hint)] := by
  unfold vbox_get_modes
  rw [List.getElem?_eq_getElem hidx]
  by_cases h0 : vbox.crtcs[idx].crtc_id = 0 <;> cases cvt_ok <;>
    by_cases hx : toU32 vbox.crtcs[idx].x_hint = toU32 (-1) <;>
    by_cases hy : toU32 vbox.crtcs[idx].y_hint = toU32 (-1) <;>
    by_cases hw : vbox.crtcs[idx].mode_hint_width = 0 <;>
    by_cases hh : vbox.crtcs[idx].mode_hint_height = 0 <;>
    simp [h0, hq, emit, hx, hy, hw, hh]

/-- The value `vbox_get_modes` forwards for a signed 32-bit hint: the hint
itself when it is not negative, 0 when it is -1, and the hint plus 2^32
otherwise. -/
theorem suggested_value_of_hint (hint : Int) (h0 : -2 ^ 31 ≤ hint) (h1 : hint < 2 ^ 31) :
    (0 ≤ hint → ((if toU32 hint = toU32 (-1) then 0 else toU32 hint : Nat) : Int) = hint) ∧
    (hint = -1 → (if toU32 hint = toU32 (-1) then 0 else toU32 hint : Nat) = 0) ∧
    (hint < -1 →
      ((if toU32 hint = toU32 (-1) then 0 else toU32 hint : Nat) : Int) = hint + 2 ^ 32) := by
  have hm : toU32 (-1) = 4294967295 := by decide
  have hc : (toU32 hint : Int) = hint % 4294967296 := by
    unfold toU32
    rw [Int.toNat_of_nonneg (Int.emod_nonneg _ (by norm_num))]
    norm_num
  norm_num at h0 h1
  refine ⟨?_, ?_, ?_⟩
  · intro h
    have hne : toU32 hint ≠ toU32 (-1) := by
      rw [hm]
      intro he
      rw [he] at hc
      omega
    rw [if_neg hne, hc]
    omega
  · intro h
    subst h
    simp
  · intro h
    have hne : toU32 hint ≠ toU32 (-1) := by
      rw [hm]
      intro he
      rw [he] at hc
      omega
    rw [if_neg hne, hc]
    omega

/-- C15 (amended): on a non-initial `vbox_get_modes` call, for every Display
and every signed 32-bit hint value, the last two calls set the suggested-x
property and then the suggested-y property, and no other call of the operation
sets a property; the suggested-x value equals `x_hint` when `x_hint >= 0`,
equals 0 when `x_hint = -1`, and equals `x_hint + 2^32` (the hint read as an
unsigned 32-bit number) when `x_hint < -1`; likewise the suggested-y value
with `y_hint`. -/
theorem suggested_position_spec (vbox : vbox_private) (idx : Nat)
    (noedid_count : Nat → Nat → Nat) (cvt_ok : Bool) (hidx : idx < vbox.crtcs.length)
    (hq : vbox.initial_mode_queried = true)
    (hx : -2 ^ 31 ≤ vbox.crtcs[idx].x_hint ∧ vbox.crtcs[idx].x_hint < 2 ^ 31)
    (hy : -2 ^ 31 ≤ vbox.crtcs[idx].y_hint ∧ vbox.crtcs[idx].y_hint < 2 ^ 31) :
    ∃ n vbox2 pre sx sy, vbox_get_modes vbox idx noedid_count cvt_ok = some (n, vbox2) ∧
      vbox2.trace = vbox.trace ++ pre ++
        [Event.property_set_value SuggestedProperty.suggested_x sx,
         Event.property_set_value SuggestedProperty.suggested_y sy] ∧
      (∀ e ∈ pre, ∀ p v, e ≠ Event.property_set_value p v) ∧
      (0 ≤ vbox.crtcs[idx].x_hint → (sx : Int) = vbox.crtcs[idx].x_hint) ∧
      (vbox.crtcs[idx].x_hint = -1 → sx = 0) ∧
      (vbox.crtcs[idx].x_hint < -1 → (sx : Int) = vbox.crtcs[idx].x_hint + 2 ^ 32) ∧
      (0 ≤ vbox.crtcs[idx].y_hint → (sy : Int) = vbox.crtcs[idx].y_hint) ∧
      (vbox.crtcs[idx].y_hint = -1 → sy = 0) ∧
      (vbox.crtcs[idx].y_hint < -1 → (sy : Int) = vbox.crtcs[idx].y_hint + 2 ^ 32) := by
  obtain ⟨vbox2, h1, h2⟩ := vbox_get_modes_queried vbox idx noedid_count cvt_ok hidx hq
  obtain ⟨hx0, hx1, hx2⟩ := suggested_value_of_hint _ hx.1 hx.2
  obtain ⟨hy0, hy1, hy2⟩ := suggested_value_of_hint _ hy.1 hy.2
  refine ⟨_, vbox2, _, _, _, h1, h2, ?_, hx0, hx1, hx2, hy0, hy1, hy2⟩
  intro e he p v
  by_cases h0 : vbox.crtcs[idx].crtc_id = 0 <;> cases cvt_ok <;>
    simp [h0] at he <;> rcases he with rfl | rfl | rfl | rfl | rfl <;> simp

/-- C15 on Displays with the hints (100, -1) and (-2, -5): the suggested
position is (100, 0) for the first and (4294967294, 4294967291) for the
second. -/
theorem suggested_position_spec_witness :
    (0 < (sample_hint_device 100 (-1)).crtcs.length ∧
     (sample_hint_device 100 (-1)).initial_mode_queried = true ∧
     (-2 ^ 31 ≤ (100 : Int) ∧ (100 : Int) < 2 ^ 31) ∧
     (-2 ^ 31 ≤ (-1 : Int) ∧ (-1 : Int) < 2 ^ 31) ∧
     ∃ n vbox2 pre,
       vbox_get_modes (sample_hint_device 100 (-1)) 0 sample_noedid_count true
         = some (n, vbox2) ∧
       vbox2.trace = (sample_hint_device 100 (-1)).trace ++ pre ++
         [Event.property_set_value SuggestedProperty.suggested_x 100,
          Event.property_set_value SuggestedProperty.suggested_y 0] ∧
       ∀ e ∈ pre, ∀ p v, e ≠ Event.property_set_value p v) ∧
    (∃ n vbox2 pre,
       vbox_get_modes (sample_hint_device (-2) (-5)) 0 sample_noedid_count true
         = some (n, vbox2) ∧
       vbox2.trace = (sample_hint_device (-2) (-5)).trace ++ pre ++
         [Event.property_set_value SuggestedProperty.suggested_x 4294967294,
          Event.property_set_value SuggestedProperty.suggested_y 4294967291] ∧
       ∀ e ∈ pre, ∀ p v, e ≠ Event.property_set_value p v) := by
  refine ⟨⟨by decide, rfl, by decide, by decide, ?_⟩, ?_⟩
  · obtain ⟨n, vbox2, pre, sx, sy, h1, h2, h3, hx0, -, -, -, hy1, -⟩ :=
      suggested_position_spec (sample_hint_device 100 (-1)) 0 sample_noedid_count true
        (by decide) rfl (by decide) (by decide)
    have hsx : sx = 100 := by
      have := hx0 (by decide)
      have h5 : (sample_hint_device 100 (-1)).crtcs[0].x_hint = 100 := rfl
      rw [h5] at this
      omega
    have hsy : sy = 0 := hy1 rfl
    subst hsx hsy
    exact ⟨n, vbox2, pre, h1, h2, h3⟩
  · obtain ⟨n, vbox2, pre, sx, sy, h1, h2, h3, -, -, hx2, -, -, hy2⟩ :=
      suggested_position_spec (sample_hint_device (-2) (-5)) 0 sample_noedid_count true
        (by decide) rfl (by decide) (by decide)
    have hsx : sx = 4294967294 := by
      have := hx2 (by decide)
      have h5 : (sample_hint_device (-2) (-5)).crtcs[0].x_hint = -2 := rfl
      rw [h5] at this
      omega
    have hsy : sy = 4294967291 := by
      have := hy2 (by decide)
      have h5 : (sample_hint_device (-2) (-5)).crtcs[0].y_hint = -5 := rfl
      rw [h5] at this
      omega
    subst hsx hsy
    exact ⟨n, vbox2, pre, h1, h2, h3⟩

/-! ## `vbox_crtc_set_base_and_mode`: the calls it makes -/

theorem vbox_do_modeset_congr (H : Header) (v1 v2 : vbox_private) (crtc : vbox_crtc)
    (h : v1.single_framebuffer = v2.single_framebuffer) :
    vbox_do_modeset H v1 crtc = vbox_do_modeset H v2 crtc := by
  unfold vbox_do_modeset
  rw [h]

theorem vbox_set_view_congr (H : Header) (v1 v2 : vbox_private) (crtc : vbox_crtc)
    (alloc_ok : Bool) (h : v1.available_vram_size = v2.available_vram_size) :
    vbox_set_view H v1 crtc alloc_ok = vbox_set_view H v2 crtc alloc_ok := by
  unfold vbox_set_view
  rw [h]

theorem vbox_crtc_set_base_and_mode_eq (H : Header) (vbox : vbox_private) (idx : Nat)
    (fb : Option drm_framebuffer) (m : drm_display_mode) (x y : Int)
    (alloc_ok : Bool) (crtc : vbox_crtc) (hc : vbox.crtcs[idx]? = some crtc) :
    vbox_crtc_set_base_and_mode H vbox idx fb (some m) x y alloc_ok =
      base_and_mode_finish H
        (base_and_mode_layout vbox idx (base_and_mode_crtc vbox crtc fb m x y)) idx
        (base_and_mode_crtc vbox crtc fb m x y) alloc_ok := by
  unfold vbox_crtc_set_base_and_mode
  rw [hc]
  rfl

/-- The device after `base_and_mode_finish`, from the calls made by its
parts. -/
theorem base_and_mode_finish_some (H : Header) (layout : Bool × vbox_private) (idx : Nat)
    (crtc : vbox_crtc) (alloc_ok : Bool) (vbox2 : vbox_private)
    (h : base_and_mode_finish H layout idx crtc alloc_ok = some vbox2) :
    ∃ others ms,
      (if layout.1 then modeset_other_crtcs H layout.2 idx layout.2.crtcs.enum
        else some []) = some others ∧
      vbox_do_modeset H layout.2 crtc = some ms ∧
      vbox2 = { layout.2 with
        hw_mutex := false,
        trace := layout.2.trace ++ (others ++ ((vbox_set_view H layout.2 crtc alloc_ok).2 ++
          (ms ++ [Event.update_input_mapping 0 0 layout.2.input_mapping_width
                    layout.2.input_mapping_height]))) } := by
  obtain ⟨changed, v⟩ := layout
  unfold base_and_mode_finish at h
  cases changed with
  | false =>
    simp only [Bool.false_eq_true, if_false, Option.bind_eq_bind, Option.some_bind,
      Option.pure_def] at h
    rw [vbox_do_modeset_congr H (emit v _) v crtc rfl] at h
    cases hms : vbox_do_modeset H v crtc with
    | none => rw [hms] at h; cases h
    | some ms =>
      rw [hms] at h
      simp only [Option.some_bind, Option.some.injEq] at h
      refine ⟨[], ms, rfl, rfl, ?_⟩
      rw [← h]
      simp [emit]
  | true =>
    simp only [if_true, Option.bind_eq_bind, Option.pure_def] at h
    cases hot : modeset_other_crtcs H v idx v.crtcs.enum with
    | none => rw [hot] at h; cases h
    | some others =>
      rw [hot] at h
      simp only [Option.map_some', Option.some_bind] at h
      rw [vbox_do_modeset_congr H (emit (emit v others) _) v crtc rfl] at h
      cases hms : vbox_do_modeset H v crtc with
      | none => rw [hms] at h; cases h
      | some ms =>
        rw [hms] at h
        simp only [Option.some_bind, Option.some.injEq] at h
        refine ⟨others, ms, rfl, rfl, ?_⟩
        rw [← h, vbox_set_view_congr H (emit v others) v crtc alloc_ok rfl]
        simp [emit]

/-- The converse: when the parts return, `base_and_mode_finish` returns. -/
theorem base_and_mode_finish_returns (H : Header) (layout : Bool × vbox_private) (idx : Nat)
    (crtc : vbox_crtc) (alloc_ok : Bool) (others ms : List Event)
    (ho : (if layout.1 then modeset_other_crtcs H layout.2 idx layout.2.crtcs.enum
        else some []) = some others)
    (hm : vbox_do_modeset H layout.2 crtc = some ms) :
    ∃ vbox2, base_and_mode_finish H layout idx crtc alloc_ok = some vbox2 := by
  obtain ⟨changed, v⟩ := layout
  unfold base_and_mode_finish
  cases changed with
  | false =>
    simp only [Bool.false_eq_true, if_false, Option.bind_eq_bind, Option.some_bind,
      Option.pure_def]
    rw [vbox_do_modeset_congr H (emit v _) v crtc rfl, hm]
    exact ⟨_, rfl⟩
  | true =>
    simp only [if_true] at ho
    simp only [if_true, Option.bind_eq_bind, Option.pure_def, ho, Option.map_some',
      Option.some_bind]
    rw [vbox_do_modeset_congr H (emit (emit v others) _) v crtc rfl, hm]
    exact ⟨_, rfl⟩

theorem vbox_do_modeset_no_pin (H : Header) (vbox : vbox_private) (crtc : vbox_crtc)
    (evs : List Event) (h : vbox_do_modeset H vbox crtc = some evs) :
    ∀ e ∈ evs, e.is_pin_change = false := by
  obtain ⟨bpp, pitch, legacy, regs, d, ox, oy, so, w, ht, b, -, -, -, he, hr, -, -⟩ :=
    vbox_do_modeset_shape H vbox crtc evs h
  intro e hmem
  rw [he] at hmem
  rcases List.mem_append.mp hmem with h1 | h1
  · have := hr e h1
    cases e <;> simp_all [Event.is_register_write, Event.is_pin_change]
  · simp only [List.mem_singleton] at h1
    subst h1
    rfl

theorem modeset_other_crtcs_no_pin (H : Header) (vbox : vbox_private) (idx : Nat)
    (l : List (Nat × vbox_crtc)) (evs : List Event)
    (h : modeset_other_crtcs H vbox idx l = some evs) :
    ∀ e ∈ evs, e.is_pin_change = false := by
  induction l generalizing evs with
  | nil =>
    unfold modeset_other_crtcs at h
    cases h
    intro e he
    cases he
  | cons p t ih =>
    obtain ⟨i, c⟩ := p
    unfold modeset_other_crtcs at h
    by_cases hi : i = idx
    · simp only [hi, beq_self_eq_true, if_true] at h
      exact ih evs h
    · have hb : (i == idx) = false := by simpa using hi
      simp only [hb, Bool.false_eq_true, if_false, Option.bind_eq_bind, Option.bind_eq_some,
        Option.pure_def, Option.some.injEq] at h
      obtain ⟨e1, h1, e2, h2, h3⟩ := h
      subst h3
      intro e he
      rcases List.mem_append.mp he with h4 | h4
      · exact vbox_do_modeset_no_pin H vbox c e1 h1 e h4
      · exact ih e2 h2 e h4

theorem vbox_set_view_no_pin (H : Header) (vbox : vbox_private) (crtc : vbox_crtc)
    (alloc_ok : Bool) : ∀ e ∈ (vbox_set_view H vbox crtc alloc_ok).2, e.is_pin_change = false := by
  unfold vbox_set_view
  cases alloc_ok <;> simp [Event.is_pin_change]

theorem vbox_set_up_input_mapping_keeps (vbox : vbox_private) :
    (vbox_set_up_input_mapping vbox).2.trace = vbox.trace ∧
    (vbox_set_up_input_mapping vbox).2.pin_count = vbox.pin_count ∧
    (vbox_set_up_input_mapping vbox).2.hw_mutex = vbox.hw_mutex ∧
    (vbox_set_up_input_mapping vbox).2.crtcs = vbox.crtcs := by
  unfold vbox_set_up_input_mapping
  cases scan_single_framebuffer vbox.fbdev_afb vbox.crtcs none true with
  | true =>
    simp only [if_true]
    cases first_framebuffer vbox.crtcs <;> exact ⟨rfl, rfl, rfl, rfl⟩
  | false => exact ⟨rfl, rfl, rfl, rfl⟩

theorem vbox_set_view_shape (H : Header) (vbox : vbox_private) (crtc : vbox_crtc)
    (alloc_ok : Bool) :
    (alloc_ok = true → ∃ i o s m, (vbox_set_view H vbox crtc alloc_ok).2
      = [Event.info_view i o s m]) ∧
    (alloc_ok = false → (vbox_set_view H vbox crtc alloc_ok) = (-ENOMEM, [])) := by
  unfold vbox_set_view
  cases alloc_ok
  · simp
  · simp

/-- The calls of a `vbox_crtc_set_base_and_mode` that returns: none of them
pins or unpins; a display-info and an input-mapping command are among them,
and a set-view command when its buffer could be allocated; the pin counts stay
and the lock is free afterwards. -/
theorem vbox_crtc_set_base_and_mode_some (H : Header) (vbox : vbox_private) (idx : Nat)
    (fb : Option drm_framebuffer) (mode : Option drm_display_mode) (x y : Int)
    (alloc_ok : Bool) (vbox2 : vbox_private)
    (h : vbox_crtc_set_base_and_mode H vbox idx fb mode x y alloc_ok = some vbox2) :
    ∃ cmds,
      vbox2.trace = vbox.trace ++ cmds ∧
      (∀ e ∈ cmds, e.is_pin_change = false) ∧
      (∃ e ∈ cmds, e.is_display_info = true) ∧
      (∃ e ∈ cmds, e.is_input_mapping = true) ∧
      (alloc_ok = true → ∃ e ∈ cmds, e.is_info_view = true) ∧
      vbox2.pin_count = vbox.pin_count ∧
      vbox2.hw_mutex = false := by
  cases hc : vbox.crtcs[idx]? with
  | none =>
    unfold vbox_crtc_set_base_and_mode at h
    rw [hc] at h
    cases h
  | some crtc =>
    cases mode with
    | none =>
      unfold vbox_crtc_set_base_and_mode at h
      rw [hc] at h
      cases h
    | some m =>
      rw [vbox_crtc_set_base_and_mode_eq H vbox idx fb m x y alloc_ok crtc hc] at h
      have kL : (base_and_mode_layout vbox idx (base_and_mode_crtc vbox crtc fb m x y)).2.trace
            = vbox.trace ∧
          (base_and_mode_layout vbox idx (base_and_mode_crtc vbox crtc fb m x y)).2.pin_count
            = vbox.pin_count := by
        obtain ⟨k1, k2, -, -⟩ := vbox_set_up_input_mapping_keeps
          { vbox with hw_mutex := true,
                      crtcs := vbox.crtcs.set idx (base_and_mode_crtc vbox crtc fb m x y) }
        exact ⟨k1, k2⟩
      generalize base_and_mode_crtc vbox crtc fb m x y = C at h kL
      generalize base_and_mode_layout vbox idx C = L at h kL
      obtain ⟨k1, k2⟩ := kL
      obtain ⟨others, ms, ho, hm, hv2⟩ := base_and_mode_finish_some H L idx C alloc_ok vbox2 h
      obtain ⟨bpp, pitch, legacy, regs, d, ox, oy, so, w, ht, b, -, -, -, he, -, -, -⟩ :=
        vbox_do_modeset_shape H L.2 C ms hm
      have hmp := vbox_do_modeset_no_pin H L.2 C ms hm
      have hop : ∀ e ∈ others, e.is_pin_change = false := by
        split_ifs at ho with hch
        · exact modeset_other_crtcs_no_pin H _ idx _ others ho
        · cases ho
          intro e he2
          cases he2
      have hvp := vbox_set_view_no_pin H L.2 C alloc_ok
      obtain ⟨s1, s2⟩ := vbox_set_view_shape H L.2 C alloc_ok
      refine ⟨others ++ ((vbox_set_view H L.2 C alloc_ok).2 ++ (ms ++
          [Event.update_input_mapping 0 0 L.2.input_mapping_width L.2.input_mapping_height])),
        ?_, ?_, ?_, ?_, ?_, ?_, ?_⟩
      · rw [hv2]
        show L.2.trace ++ _ = _
        rw [k1]
      · intro e hmem
        rcases List.mem_append.mp hmem with h1 | h1
        · exact hop e h1
        · rcases List.mem_append.mp h1 with h2 | h2
          · exact hvp e h2
          · rcases List.mem_append.mp h2 with h3 | h3
            · exact hmp e h3
            · simp only [List.mem_singleton] at h3
              subst h3
              rfl
      · refine ⟨Event.process_display_info d ox oy so pitch w ht b (screen_flags H C), ?_, rfl⟩
        rw [he]
        simp
      · exact ⟨Event.update_input_mapping 0 0 L.2.input_mapping_width L.2.input_mapping_height,
          by simp, rfl⟩
      · intro ha
        obtain ⟨i, o, sz, mx, hview⟩ := s1 ha
        refine ⟨Event.info_view i o sz mx, ?_, rfl⟩
        rw [hview]
        simp
      · rw [hv2]
        show L.2.pin_count = _
        rw [k2]
      · rw [hv2]

theorem replay_pins_append (pins : Nat → Nat) (l1 l2 : List Event) :
    replay_pins pins (l1 ++ l2) = replay_pins (replay_pins pins l1) l2 := by
  induction l1 generalizing pins with
  | nil => rfl
  | cons e t ih =>
    cases e <;> simp only [List.cons_append, replay_pins] <;> exact ih _

theorem replay_pins_no_pin (pins : Nat → Nat) (l : List Event)
    (h : ∀ e ∈ l, e.is_pin_change = false) : replay_pins pins l = pins := by
  induction l generalizing pins with
  | nil => rfl
  | cons e t ih =>
    have he := h e (List.mem_cons_self _ _)
    have ht := fun pins2 => ih pins2 (fun e2 h2 => h e2 (List.mem_cons_of_mem _ h2))
    cases e <;> simp_all [replay_pins, Event.is_pin_change]

/-- What a successful `vbox_crtc_mode_set` leaves behind: the new
framebuffer's pin, then the calls of `vbox_crtc_set_base_and_mode`, then the
unpin of the old framebuffer. -/
theorem vbox_crtc_mode_set_some (H : Header) (vbox : vbox_private) (idx : Nat)
    (mode : drm_display_mode) (x y : Int) (old_fb : Option drm_framebuffer)
    (pin_ret : Int) (alloc_ok : Bool) (vbox2 : vbox_private)
    (h : vbox_crtc_mode_set H vbox idx mode x y old_fb pin_ret alloc_ok = some (0, vbox2)) :
    ∃ crtc new_fb cmds,
      vbox.crtcs[idx]? = some crtc ∧ crtc.primary_fb = some new_fb ∧ pin_ret = 0 ∧
      (∀ e ∈ cmds, e.is_pin_change = false) ∧
      (∃ e ∈ cmds, e.is_display_info = true) ∧
      (∃ e ∈ cmds, e.is_input_mapping = true) ∧
      (alloc_ok = true → ∃ e ∈ cmds, e.is_info_view = true) ∧
      vbox2.trace = vbox.trace ++ ([Event.bo_pin new_fb.obj] ++ cmds ++ old_fb_unpin old_fb) ∧
      vbox2.pin_count = replay_pins vbox.pin_count
        ([Event.bo_pin new_fb.obj] ++ cmds ++ old_fb_unpin old_fb) := by
  unfold vbox_crtc_mode_set at h
  cases hc : vbox.crtcs[idx]? with
  | none => rw [hc] at h; cases h
  | some crtc =>
    rw [hc] at h
    simp only [Option.bind_eq_bind, Option.some_bind] at h
    cases hfb : crtc.primary_fb with
    | none => rw [hfb] at h; cases h
    | some new_fb =>
      rw [hfb] at h
      simp only [Option.some_bind] at h
      by_cases hp : pin_ret = 0
      · subst hp
        have e1 : vbox_bo_pin vbox new_fb.obj 0
            = (0, (vbox_bo_pin vbox new_fb.obj 0).2) := rfl
        rw [e1] at h
        simp only [bne_self_eq_false, Bool.false_eq_true, if_false, Option.bind_eq_some,
          Option.pure_def, Option.some.injEq, Prod.mk.injEq, true_and] at h
        obtain ⟨v3, hsb, hv2⟩ := h
        obtain ⟨cmds, htr, hcmd, hdi, him, hiv, hpc, -⟩ :=
          vbox_crtc_set_base_and_mode_some H _ idx _ _ x y alloc_ok v3 hsb
        have htr1 : (vbox_bo_pin vbox new_fb.obj 0).2.trace
            = vbox.trace ++ [Event.bo_pin new_fb.obj] := rfl
        have hpc1 : (vbox_bo_pin vbox new_fb.obj 0).2.pin_count
            = replay_pins vbox.pin_count [Event.bo_pin new_fb.obj] := rfl
        rw [htr1] at htr
        rw [hpc1] at hpc
        refine ⟨crtc, new_fb, cmds, rfl, hfb, rfl, hcmd, hdi, him, hiv, ?_, ?_⟩
        · rw [← hv2]
          cases old_fb with
          | none => simp [old_fb_unpin, htr]
          | some fo => simp [old_fb_unpin, vbox_bo_unpin, emit, htr]
        · rw [← hv2, replay_pins_append, replay_pins_append, replay_pins_no_pin _ _ hcmd]
          cases old_fb with
          | none => simp [old_fb_unpin, replay_pins, hpc]
          | some fo => simp [old_fb_unpin, vbox_bo_unpin, emit, replay_pins, hpc]
      · exfalso
        have e1 : vbox_bo_pin vbox new_fb.obj pin_ret = (pin_ret, vbox) := by
          unfold vbox_bo_pin
          simp [hp]
        rw [e1] at h
        simp [hp] at h

/-! ## Surface swap -/

/-- Order of the calls in a `vbox_crtc_mode_set` that returns 0: the calls
added to the trace are the pin of the new framebuffer's object, then commands that neither
pin nor unpin (a display-info and an input-mapping command among them, and a
set-view command when its buffer could be allocated), then the unpin of the
old framebuffer's object, if there is one; the pin counts afterwards are the
ones these calls give; and, the old Surface being pinned at the start, after
every prefix of these calls the new or the old Surface has a pin count of at
least 1. -/
theorem vbox_crtc_mode_set_pin_order (H : Header) (vbox : vbox_private) (idx : Nat)
    (mode : drm_display_mode) (x y : Int) (old_fb : Option drm_framebuffer)
    (pin_ret : Int) (alloc_ok : Bool) (vbox2 : vbox_private)
    (h : vbox_crtc_mode_set H vbox idx mode x y old_fb pin_ret alloc_ok = some (0, vbox2))
    (hold : ∀ f, old_fb = some f → 1 ≤ vbox.pin_count f.obj) :
    ∃ new_fb cmds,
      (∃ crtc, vbox.crtcs[idx]? = some crtc ∧ crtc.primary_fb = some new_fb) ∧
      vbox2.trace = vbox.trace ++ ([Event.bo_pin new_fb.obj] ++ cmds ++ old_fb_unpin old_fb) ∧
      (∀ e ∈ cmds, e.is_pin_change = false) ∧
      (∃ e ∈ cmds, e.is_display_info = true) ∧
      (∃ e ∈ cmds, e.is_input_mapping = true) ∧
      (alloc_ok = true → ∃ e ∈ cmds, e.is_info_view = true) ∧
      vbox2.pin_count = replay_pins vbox.pin_count
        ([Event.bo_pin new_fb.obj] ++ cmds ++ old_fb_unpin old_fb) ∧
      ∀ f, old_fb = some f → ∀ n,
        1 ≤ replay_pins vbox.pin_count
            (([Event.bo_pin new_fb.obj] ++ cmds ++ old_fb_unpin old_fb).take n) new_fb.obj ∨
        1 ≤ replay_pins vbox.pin_count
            (([Event.bo_pin new_fb.obj] ++ cmds ++ old_fb_unpin old_fb).take n) f.obj := by
  obtain ⟨crtc, new_fb, cmds, hc, hfb, -, hcmd, hdi, him, hiv, htr, hpc⟩ :=
    vbox_crtc_mode_set_some H vbox idx mode x y old_fb pin_ret alloc_ok vbox2 h
  refine ⟨new_fb, cmds, ⟨crtc, hc, hfb⟩, htr, hcmd, hdi, him, hiv, hpc, ?_⟩
  intro f hf n
  have h1 := hold f hf
  subst hf
  cases n with
  | zero =>
    right
    simpa [replay_pins] using h1
  | succ k =>
    have htake : ([Event.bo_pin new_fb.obj] ++ cmds ++ old_fb_unpin (some f)).take (k + 1)
        = Event.bo_pin new_fb.obj ::
            (cmds.take k ++ (old_fb_unpin (some f)).take (k - cmds.length)) := by
      simp [List.take_append_eq_append_take]
    have hpre : ∀ e ∈ cmds.take k, e.is_pin_change = false :=
      fun e he => hcmd e (List.mem_of_mem_take he)
    rw [htake]
    simp only [replay_pins]
    rw [replay_pins_append, replay_pins_no_pin _ _ hpre]
    cases k - cmds.length with
    | zero =>
      left
      simp [old_fb_unpin, replay_pins]
    | succ j =>
      left
      simp only [old_fb_unpin, List.take_succ_cons, List.take_nil, replay_pins]
      by_cases hab : new_fb.obj = f.obj
      · rw [hab]
        simp
        omega
      · rw [Function.update_noteq hab]
        simp

/-- The order of the calls on the sample device: the mode set with old
framebuffer object 8 and new framebuffer object 7 succeeds, with the set-view
buffer allocated, and the ordering holds for it. -/
theorem vbox_crtc_mode_set_pin_order_witness :
    ∃ vbox2,
      vbox_crtc_mode_set vboxHeader sample_swap_device 0 ⟨1024, 768⟩ 0 0
        (some (sample_fb 3 640 480 8)) 0 true = some (0, vbox2) ∧
      ∃ new_fb cmds,
        (∃ crtc, sample_swap_device.crtcs[0]? = some crtc ∧ crtc.primary_fb = some new_fb) ∧
        vbox2.trace = sample_swap_device.trace ++
          ([Event.bo_pin new_fb.obj] ++ cmds ++ old_fb_unpin (some (sample_fb 3 640 480 8))) ∧
        (∀ e ∈ cmds, e.is_pin_change = false) ∧
        (∃ e ∈ cmds, e.is_display_info = true) ∧
        (∃ e ∈ cmds, e.is_input_mapping = true) ∧
        (true = true → ∃ e ∈ cmds, e.is_info_view = true) ∧
        vbox2.pin_count = replay_pins sample_swap_device.pin_count
          ([Event.bo_pin new_fb.obj] ++ cmds ++ old_fb_unpin (some (sample_fb 3 640 480 8))) ∧
        ∀ f, some (sample_fb 3 640 480 8) = some f → ∀ n,
          1 ≤ replay_pins sample_swap_device.pin_count
              (([Event.bo_pin new_fb.obj] ++ cmds ++
                old_fb_unpin (some (sample_fb 3 640 480 8))).take n) new_fb.obj ∨
          1 ≤ replay_pins sample_swap_device.pin_count
              (([Event.bo_pin new_fb.obj] ++ cmds ++
                old_fb_unpin (some (sample_fb 3 640 480 8))).take n) f.obj := by
  have h0 : (vbox_crtc_mode_set vboxHeader sample_swap_device 0 ⟨1024, 768⟩ 0 0
      (some (sample_fb 3 640 480 8)) 0 true).map (fun r => r.1) = some 0 := by decide
  cases hr : vbox_crtc_mode_set vboxHeader sample_swap_device 0 ⟨1024, 768⟩ 0 0
      (some (sample_fb 3 640 480 8)) 0 true with
  | none => rw [hr] at h0; cases h0
  | some r =>
    obtain ⟨ret, v2⟩ := r
    rw [hr] at h0
    simp only [Option.map_some', Option.some.injEq] at h0
    subst h0
    refine ⟨v2, rfl, vbox_crtc_mode_set_pin_order vboxHeader sample_swap_device 0 ⟨1024, 768⟩
      0 0 (some (sample_fb 3 640 480 8)) 0 true v2 hr ?_⟩
    intro f hf
    cases hf
    decide

/-- C11 (failing input): on the sample device (old framebuffer object 8
pinned once, new framebuffer object 7), with the set-view buffer allocation
failing, `vbox_crtc_mode_set` returns 0 and its last call unpins the old
framebuffer, leaving it with pin count 0, although no set-view command was
issued: the calls are the pin of the new framebuffer, the legacy register
writes, the display-info and the input-mapping command, and the unpin. -/
theorem vbox_crtc_mode_set_unpins_without_set_view :
    sample_swap_device.pin_count 8 = 1 ∧
    (vbox_crtc_mode_set vboxHeader sample_swap_device 0 ⟨1024, 768⟩ 0 0
        (some (sample_fb 3 640 480 8)) 0 false).map
      (fun r => (r.1, r.2.trace.any Event.is_info_view, r.2.trace.map Event.is_pin_change))
      = some (0, false,
          [true, false, false, false, false, false, false, false, false, false, true]) ∧
    (vbox_crtc_mode_set vboxHeader sample_swap_device 0 ⟨1024, 768⟩ 0 0
        (some (sample_fb 3 640 480 8)) 0 false).map
      (fun r => (r.2.trace.head?, r.2.trace.getLast?, r.2.pin_count 7, r.2.pin_count 8))
      = some (some (Event.bo_pin 7), some (Event.bo_unpin 8), 1, 0) := by
  refine ⟨by decide, by decide, by decide⟩

/-! ## Failure to allocate the set-view buffer -/

/-- C12 (failing input): on the sample device, with the set-view buffer
allocation failing (`vbox_set_view` returns `-ENOMEM`), `vbox_crtc_mode_set`
returns 0, has programmed the legacy registers and sent the display-info and
input-mapping commands, and has unpinned the old framebuffer. -/
theorem vbox_crtc_mode_set_ignores_set_view_failure :
    (vbox_set_view vboxHeader sample_swap_device
      (base_and_mode_crtc sample_swap_device (sample_legacy_crtc 0)
        (some (sample_fb 2 1024 768 7)) ⟨1024, 768⟩ 0 0) false).1 = -ENOMEM ∧
    (vbox_crtc_mode_set vboxHeader sample_swap_device 0 ⟨1024, 768⟩ 0 0
        (some (sample_fb 3 640 480 8)) 0 false).map (fun r => (r.1, r.2.trace))
      = some (0, [Event.bo_pin 7,
          Event.write_ioport 1 1024, Event.write_ioport 2 768, Event.write_ioport 6 1024,
          Event.write_ioport 3 32, Event.write_ioport 4 1, Event.write_ioport 8 0,
          Event.write_ioport 9 0,
          Event.process_display_info 0 0 0 0 4096 1024 768 32 1,
          Event.update_input_mapping 0 0 1024 768,
          Event.bo_unpin 8]) := by
  decide

/-! ## Cursor update when the mapping fails -/

/-- C13 (counterexample): one Display whose cursor is not enabled; the cursor
update with a failing `vbox_bo_kmap` leaves the Display's cursor-enabled flag
set. -/
theorem cursor_update_kmap_failure_counterexample :
    (sample_device [sample_crtc 0 none 0 0 0 0]).crtcs.map (fun c => c.cursor_enabled)
      = [false] ∧
    (vbox_cursor_atomic_update vboxHeader (sample_device [sample_crtc 0 none 0 0 0 0]) 0
        (sample_fb 5 2 2 20) none 2 2 none).map
        (fun v => v.crtcs.map (fun c => c.cursor_enabled))
      = some [true] := by
  decide

theorem list_set_same (l : List vbox_crtc) (i : Nat) (h : i < l.length) :
    l.set i l[i] = l := by
  apply List.ext_getElem?
  intro j
  by_cases hj : i = j
  · subst hj
    rw [List.getElem?_set_self h, List.getElem?_eq_getElem h]
  · rw [List.getElem?_set_ne hj]

/-- C13 (amended): when mapping the cursor Surface fails in
`vbox_cursor_atomic_update`, no pointer-shape command (no call at all) is
issued, the device cursor buffer is the one before the call, the
cursor-enabled flag of every other Display is unchanged, and the
cursor-enabled flag of the updated Display is true; so the Cursor State is
unchanged when that flag was already set. -/
theorem cursor_update_kmap_failure (H : Header) (vbox : vbox_private) (idx : Nat)
    (fb : drm_framebuffer) (old_fb : Option drm_framebuffer) (crtc_w crtc_h : Nat)
    (hidx : idx < vbox.crtcs.length)
    (hfb : some fb.addr ≠ old_fb.map (fun f => f.addr)) :
    ∃ vbox2, vbox_cursor_atomic_update H vbox idx fb old_fb crtc_w crtc_h none = some vbox2 ∧
      vbox2.trace = vbox.trace ∧
      vbox2.cursor_data = vbox.cursor_data ∧
      vbox2.crtcs = vbox.crtcs.set idx { vbox.crtcs[idx] with cursor_enabled := true } ∧
      (∀ i, i ≠ idx → vbox2.crtcs[i]? = vbox.crtcs[i]?) ∧
      (vbox.crtcs[idx].cursor_enabled = true → vbox2.crtcs = vbox.crtcs) := by
  unfold vbox_cursor_atomic_update
  rw [List.getElem?_eq_getElem hidx]
  simp only [Option.bind_eq_bind, Option.some_bind, beq_iff_eq, hfb, if_false, Option.pure_def]
  refine ⟨_, rfl, rfl, rfl, rfl, ?_, ?_⟩
  · intro i hi
    exact List.getElem?_set_ne (Ne.symm hi)
  · intro hen
    show vbox.crtcs.set idx { vbox.crtcs[idx] with cursor_enabled := true } = vbox.crtcs
    have e : ({ vbox.crtcs[idx] with cursor_enabled := true } : vbox_crtc) = vbox.crtcs[idx] := by
      rw [← hen]
    rw [e]
    exact list_set_same _ _ hidx

/-- C13 on the sample Display. -/
theorem cursor_update_kmap_failure_witness :
    0 < (sample_cursor_device false).crtcs.length ∧
    ∃ vbox2, vbox_cursor_atomic_update vboxHeader (sample_cursor_device false) 1
        (sample_fb 5 2 2 20) none 2 2 none = some vbox2 ∧
      vbox2.trace = (sample_cursor_device false).trace ∧
      vbox2.cursor_data = (sample_cursor_device false).cursor_data ∧
      vbox2.crtcs = (sample_cursor_device false).crtcs.set 1
        { (sample_cursor_device false).crtcs[1] with cursor_enabled := true } ∧
      (∀ i, i ≠ 1 → vbox2.crtcs[i]? = (sample_cursor_device false).crtcs[i]?) ∧
      ((sample_cursor_device false).crtcs[1].cursor_enabled = true →
        vbox2.crtcs = (sample_cursor_device false).crtcs) :=
  ⟨by decide, cursor_update_kmap_failure vboxHeader (sample_cursor_device false) 1
    (sample_fb 5 2 2 20) none 2 2 (by decide) (by decide)⟩

/-! ## The hardware-access lock -/

/-- The operations that take the lock release it on the paths other than the
failed cursor mapping: `vbox_crtc_dpms`, `vbox_crtc_set_base_and_mode`,
`vbox_cursor_atomic_disable`, and `vbox_cursor_atomic_update` when the mapping
succeeds. -/
theorem hw_mutex_released (H : Header) (vbox vbox2 : vbox_private) (idx : Nat) :
    (∀ mode, vbox_crtc_dpms H vbox idx mode = some vbox2 → vbox2.hw_mutex = false) ∧
    (∀ fb mode x y alloc_ok,
      vbox_crtc_set_base_and_mode H vbox idx fb mode x y alloc_ok = some vbox2 →
      vbox2.hw_mutex = false) ∧
    (vbox_cursor_atomic_disable vbox idx = some vbox2 → vbox2.hw_mutex = false) ∧
    (∀ fb old_fb w h src, some fb.addr ≠ old_fb.map (fun f => f.addr) →
      vbox_cursor_atomic_update H vbox idx fb old_fb w h (some src) = some vbox2 →
      vbox2.hw_mutex = false) := by
  refine ⟨?_, ?_, ?_, ?_⟩
  · intro mode h
    unfold vbox_crtc_dpms at h
    simp only [Option.bind_eq_bind, Option.bind_eq_some, Option.pure_def,
      Option.some.injEq] at h
    obtain ⟨c, -, evs, -, hv⟩ := h
    rw [← hv]
  · intro fb mode x y alloc_ok h
    obtain ⟨cmds, -, -, -, -, -, -, hm⟩ :=
      vbox_crtc_set_base_and_mode_some H vbox idx fb mode x y alloc_ok vbox2 h
    exact hm
  · intro h
    unfold vbox_cursor_atomic_disable at h
    simp only [Option.bind_eq_bind, Option.bind_eq_some, Option.pure_def,
      Option.some.injEq] at h
    obtain ⟨c, -, hv⟩ := h
    rw [← hv]
  · intro fb old_fb w h src hfb hu
    unfold vbox_cursor_atomic_update at hu
    simp only [Option.bind_eq_bind, Option.bind_eq_some, Option.pure_def, beq_iff_eq, hfb,
      if_false, Option.some.injEq] at hu
    obtain ⟨c, -, hv⟩ := hu
    rw [← hv]

/-- C20 (failing input): the lock is free before the call; the cursor update
with a failing `vbox_bo_kmap` returns with the lock held. -/
theorem cursor_update_kmap_failure_keeps_lock :
    (sample_cursor_device false).hw_mutex = false ∧
    (vbox_cursor_atomic_update vboxHeader (sample_cursor_device false) 0
        (sample_fb 5 2 2 20) none 2 2 none).map (fun v => v.hw_mutex)
      = some true := by
  decide

end VBox
